import Mathlib

/-!
# Joystick control: signal conditioning and button handling

A shallow embedding of `src/joystick-control.c` (a Raspberry Pi Pico program that
reads a two-axis joystick and two buttons and drives two PWM LEDs, one digital
LED and an SSD1306 display), followed by theorems about it.

Conventions of the embedding.

* Unsigned C variables (`uint16_t`, `uint8_t`, `uint32_t`, `uint`) hold natural
  numbers.  An expression that C evaluates in `int` is evaluated in `Int`, and a
  conversion to an unsigned type of width `w` is written with `u32`, `u16` or
  `u8`, which reduce modulo `2 ^ w`.
* The statements of one iteration of the `while (true)` loop of `main` are
  translated in order; every variable assigned in the loop body gives one
  definition that carries the name of the variable.
* The hardware the program writes to is part of the state: the two PWM channel
  levels written by `pwm_set_chan_level` and the level of the green LED pin
  written by `gpio_put`.
-/

namespace Joystick

/-! ## Constants (lines 39-71 and 88 of the source) -/

/-- Pin of the joystick button, `#define JOYSTICK_BTN_PIN 22`. -/
def JOYSTICK_BTN_PIN : Nat := 22

/-- Pin of button A, `#define BUTTON_A_PIN 5`. -/
def BUTTON_A_PIN : Nat := 5

/-- Display width, `#define SSD1306_WIDTH 128`. -/
def SSD1306_WIDTH : Int := 128

/-- Display height, `#define SSD1306_HEIGHT 64`. -/
def SSD1306_HEIGHT : Int := 64

/-- Debounce delay in milliseconds, `#define DEBOUNCE_DELAY_MS 200`. -/
def DEBOUNCE_DELAY_MS : Int := 200

/-- Half width of the dead zone, `#define DEADZONE 50`. -/
def DEADZONE : Int := 50

/-- Calibration offset of the Y axis, `#define Y_OFFSET 52`. -/
def Y_OFFSET : Int := 52

/-- PWM resolution, `const uint16_t PWM_WRAP = 255`. -/
def PWM_WRAP : Nat := 255

/-! ## Conversions to the unsigned C types -/

/-- Conversion of an integer to `uint32_t`: reduction modulo `2 ^ 32`. -/
def u32 (z : Int) : Nat := (z % 4294967296).toNat

/-- Conversion of an integer to `uint16_t`: reduction modulo `2 ^ 16`. -/
def u16 (z : Int) : Nat := (z % 65536).toNat

/-- Conversion of an integer to `uint8_t`: reduction modulo `2 ^ 8`. -/
def u8 (z : Int) : Nat := (z % 256).toNat

/-! ## The loop body of `main`, statement by statement -/

/-- Lines 199-205: the offset-corrected Y value.
`if (filtered_adc_y >= Y_OFFSET) calibrated_adc_y = filtered_adc_y - Y_OFFSET;
else calibrated_adc_y = 0;
if (calibrated_adc_y > (4095 - Y_OFFSET)) calibrated_adc_y = 4095 - Y_OFFSET;` -/
def calibrated_adc_y (filtered_adc_y : Nat) : Nat :=
  let c : Nat :=
    if (filtered_adc_y : Int) ≥ Y_OFFSET then u16 ((filtered_adc_y : Int) - Y_OFFSET)
    else 0
  if (c : Int) > 4095 - Y_OFFSET then u16 (4095 - Y_OFFSET) else c

/-- Line 207: the rescaled Y value, before the dead zone is applied.
`uint16_t new_adc_y = (uint16_t)(((uint32_t)calibrated_adc_y * 4095) / (4095 - Y_OFFSET));` -/
def new_adc_y (calibrated : Nat) : Nat :=
  u16 (((u32 calibrated * u32 4095 % 4294967296 : Nat) / u32 (4095 - Y_OFFSET) : Nat))

/-- Lines 210-211: the dead zone of the X axis, assigned to `filtered_adc_x` itself.
`if ((filtered_adc_x > (2048 - DEADZONE)) && (filtered_adc_x < (2048 + DEADZONE)))
filtered_adc_x = 2048;` -/
def deadzone_x (filtered_adc_x : Nat) : Nat :=
  if (filtered_adc_x : Int) > 2048 - DEADZONE ∧ (filtered_adc_x : Int) < 2048 + DEADZONE
  then 2048 else filtered_adc_x

/-- Lines 212-213: the dead zone of the Y axis, assigned to the local `new_adc_y`.
`if ((new_adc_y > (2048 - DEADZONE)) && (new_adc_y < (2048 + DEADZONE)))
new_adc_y = 2048;` -/
def deadzone_y (new_y : Nat) : Nat :=
  if (new_y : Int) > 2048 - DEADZONE ∧ (new_y : Int) < 2048 + DEADZONE
  then 2048 else new_y

/-- Lines 217-223: brightness of the red LED from the dead-zoned X value.
`if (filtered_adc_x < 2048)
brightness_red = ((uint32_t)(2048 - DEADZONE - filtered_adc_x) * PWM_WRAP) / (2048 - DEADZONE);
else if (filtered_adc_x > (2048 + DEADZONE))
brightness_red = ((uint32_t)(filtered_adc_x - (2048 + DEADZONE)) * PWM_WRAP) / (2047 - DEADZONE);
else brightness_red = 0;`
The product is a `uint32_t` product, the quotient is converted to `uint16_t`. -/
def brightness_red (filtered_adc_x : Nat) : Nat :=
  if (filtered_adc_x : Int) < 2048 then
    u16 (((u32 (2048 - DEADZONE - (filtered_adc_x : Int)) * u32 PWM_WRAP % 4294967296 : Nat)
      / u32 (2048 - DEADZONE) : Nat))
  else if (filtered_adc_x : Int) > 2048 + DEADZONE then
    u16 (((u32 ((filtered_adc_x : Int) - (2048 + DEADZONE)) * u32 PWM_WRAP % 4294967296 : Nat)
      / u32 (2047 - DEADZONE) : Nat))
  else 0

/-- Lines 225-231: brightness of the blue LED from the dead-zoned rescaled Y value.
`if (new_adc_y < 2048)
brightness_blue = ((uint32_t)(2048 - DEADZONE - new_adc_y) * PWM_WRAP) / (2048 - DEADZONE);
else if (new_adc_y > (2048 + DEADZONE))
brightness_blue = ((uint32_t)(new_adc_y - (2048 + DEADZONE)) * PWM_WRAP) / (2047 - DEADZONE);
else brightness_blue = 0;` -/
def brightness_blue (new_y : Nat) : Nat :=
  if (new_y : Int) < 2048 then
    u16 (((u32 (2048 - DEADZONE - (new_y : Int)) * u32 PWM_WRAP % 4294967296 : Nat)
      / u32 (2048 - DEADZONE) : Nat))
  else if (new_y : Int) > 2048 + DEADZONE then
    u16 (((u32 ((new_y : Int) - (2048 + DEADZONE)) * u32 PWM_WRAP % 4294967296 : Nat)
      / u32 (2047 - DEADZONE) : Nat))
  else 0

/-- Line 246: horizontal position of the marker.
`uint8_t pos_x = (uint32_t)filtered_adc_x * (SSD1306_WIDTH - 8) / 4095;` -/
def pos_x (filtered_adc_x : Nat) : Nat :=
  u8 (((u32 filtered_adc_x * u32 (SSD1306_WIDTH - 8) % 4294967296 : Nat) / u32 4095 : Nat))

/-- Line 247: vertical position of the marker.
`uint8_t pos_y = (uint32_t)(4095 - new_adc_y) * (SSD1306_HEIGHT - 8) / 4095;` -/
def pos_y (new_y : Nat) : Nat :=
  u8 (((u32 (4095 - (new_y : Int)) * u32 (SSD1306_HEIGHT - 8) % 4294967296 : Nat)
    / u32 4095 : Nat))

/-! ## The exponential moving average (lines 195-196)

`ALPHA` is the `float` literal `0.1f`, so the filter is evaluated in IEEE 754
binary32 arithmetic: the `uint16_t` operands are converted to `float` (exactly),
each of the two products and the sum is rounded to the nearest binary32 value,
ties to even, and the conversion to `uint16_t` truncates toward zero.

All binary32 values that occur are non-negative multiples of `2 ^ (-27)` below
`2 ^ 13`, far from the subnormal and overflow ranges, so a value is represented
by the natural number of its `2 ^ (-27)` units, and rounding to binary32 is
rounding that number to 24 significant bits. -/

/-- The binary exponent of `m` relative to a 24-bit significand: the least `s` with
`m / 2 ^ s < 2 ^ 24`, found by halving at most `fuel` times (enough whenever
`m < 2 ^ (24 + fuel)`). -/
def f32Shift : Nat → Nat → Nat
  | 0, _ => 0
  | fuel + 1, m => if m < 2 ^ 24 then 0 else f32Shift fuel (m / 2) + 1

/-- Rounding of a non-negative real `m * 2 ^ (-27)` to binary32 (24 significant
bits), to nearest with ties to even, on the number `m` of units: with `s` the
exponent of `m`, the significand `m / 2 ^ s` is kept or incremented according to
the discarded bits `m % 2 ^ s`. -/
def roundF32 (m : Nat) : Nat :=
  let s := f32Shift m m
  let q := m / 2 ^ s
  let r := m % 2 ^ s
  if 2 * r > 2 ^ s ∨ (2 * r = 2 ^ s ∧ q % 2 = 1) then (q + 1) * 2 ^ s else q * 2 ^ s

/-- The number of units of `1.0f`: `2 ^ 27`. -/
def F32_ONE : Nat := 134217728

/-- The macro `ALPHA`, the literal `0.1f`, in units of `2 ^ (-27)`: the binary32
value nearest to one tenth is `13421773 * 2 ^ (-27)` (hexadecimal `0x3DCCCCCD`). -/
def ALPHA : Nat := 13421773

/-- The constant expression `1.0f - ALPHA`, a binary32 subtraction, in units of
`2 ^ (-27)`; its value is `15099494 * 2 ^ (-24)` (hexadecimal `0x3F666666`). -/
def ONE_MINUS_ALPHA : Nat := roundF32 (F32_ONE - ALPHA)

/-- Lines 195-196: one step of the filter,
`(uint16_t)(ALPHA * raw + (1.0f - ALPHA) * filtered)`. -/
def ema (raw filtered : Nat) : Nat :=
  u16 ((roundF32 (roundF32 (ALPHA * raw) + roundF32 (ONE_MINUS_ALPHA * filtered)) / F32_ONE
    : Nat))

/-! ## Program state -/

/-- The global variables of the program, the two filter variables of `main` that
live across iterations, and the outputs the program drives. Times are microseconds
since boot. -/
structure State where
  /-- The global `pwm_enabled`. -/
  pwm_enabled : Bool
  /-- The global `led_green_on`. -/
  led_green_on : Bool
  /-- The global `border_style`, a `uint8_t`. -/
  border_style : Nat
  /-- The global `last_js_btn_time`. -/
  last_js_btn_time : Nat
  /-- The global `last_btn_a_time`. -/
  last_btn_a_time : Nat
  /-- The variable `filtered_adc_x` of `main`, declared before the loop. -/
  filtered_adc_x : Nat
  /-- The variable `filtered_adc_y` of `main`, declared before the loop. -/
  filtered_adc_y : Nat
  /-- Level of the PWM channel of the red LED, written by
  `pwm_set_chan_level(slice_red, chan_red, _)`. -/
  level_red : Nat
  /-- Level of the PWM channel of the blue LED, written by
  `pwm_set_chan_level(slice_blue, chan_blue, _)`. -/
  level_blue : Nat
  /-- Level of the green LED pin, written by `gpio_put(LED_GREEN_PIN, _)`. -/
  led_green_pin : Bool
  deriving DecidableEq

/-- The values one iteration of the loop computes and hands to the display. -/
structure Cycle where
  /-- The local `calibrated_adc_y`. -/
  calibrated_adc_y : Nat
  /-- The local `new_adc_y` after the dead zone. -/
  new_adc_y : Nat
  /-- The local `brightness_red`. -/
  brightness_red : Nat
  /-- The local `brightness_blue`. -/
  brightness_blue : Nat
  /-- The local `pos_x`. -/
  pos_x : Nat
  /-- The local `pos_y`. -/
  pos_y : Nat
  deriving DecidableEq

/-! ## The interrupt handler (lines 93-115) -/

/-- The SDK function `absolute_time_diff_us(from, to)`: the signed number of
microseconds from the first time to the second. -/
def absolute_time_diff_us (t_from t_to : Nat) : Int := (t_to : Int) - (t_from : Int)

/-- The handler `gpio_callback(gpio, events)`; `now` is the value
`get_absolute_time()` returns on its first line. The source does not read `events`. -/
def gpio_callback (gpio _events now : Nat) (s : State) : State :=
  if gpio = JOYSTICK_BTN_PIN then
    if absolute_time_diff_us s.last_js_btn_time now < DEBOUNCE_DELAY_MS * 1000 then s
    else
      { s with
        last_js_btn_time := now
        led_green_on := !s.led_green_on
        border_style := u8 (((s.border_style : Int) + 1) % 2) }
  else if gpio = BUTTON_A_PIN then
    if absolute_time_diff_us s.last_btn_a_time now < DEBOUNCE_DELAY_MS * 1000 then s
    else
      let s1 : State := { s with last_btn_a_time := now, pwm_enabled := !s.pwm_enabled }
      if !s1.pwm_enabled then { s1 with level_red := 0, level_blue := 0 } else s1
  else s

/-! ## The function `main` -/

/-- The state when `main` enters its loop (lines 74-76 and 177-183); `t_js` and
`t_a` are the times the two calls of `get_absolute_time()` at lines 178 and 179
return. The PWM levels and the green pin are at their reset value. -/
def main_init (t_js t_a : Nat) : State :=
  { pwm_enabled := true
    led_green_on := false
    border_style := 0
    last_js_btn_time := t_js
    last_btn_a_time := t_a
    filtered_adc_x := 2048
    filtered_adc_y := 2048
    level_red := 0
    level_blue := 0
    led_green_pin := false }

/-- One iteration of the `while (true)` loop of `main` (lines 187-272), run
without interruption; `raw_adc_y` and `raw_adc_x` are the two values `adc_read()`
returns. The result is the state after the iteration and the values drawn. -/
def main_loop (s : State) (raw_adc_y raw_adc_x : Nat) : State × Cycle :=
  -- lines 195-196
  let fx := ema raw_adc_x s.filtered_adc_x
  let fy := ema raw_adc_y s.filtered_adc_y
  -- lines 199-207
  let cal := calibrated_adc_y fy
  let ny := new_adc_y cal
  -- lines 210-213
  let fx := deadzone_x fx
  let ny := deadzone_y ny
  -- lines 217-231
  let red := brightness_red fx
  let blue := brightness_blue ny
  -- lines 234-237
  let s1 : State := if s.pwm_enabled then { s with level_red := red, level_blue := blue } else s
  -- line 240
  let s2 : State := { s1 with led_green_pin := s1.led_green_on }
  -- lines 246-247
  let px := pos_x fx
  let py := pos_y ny
  ({ s2 with filtered_adc_x := fx, filtered_adc_y := fy },
   { calibrated_adc_y := cal, new_adc_y := ny, brightness_red := red,
     brightness_blue := blue, pos_x := px, pos_y := py })

/-! ## Runs of the program

The handler and one loop iteration are the two kinds of step of the program; a run
is a finite sequence of such steps, each taken atomically. -/

/-- One step of the program: a call of `gpio_callback(gpio, events)` at time `now`,
or one iteration of the loop of `main` with the two values `adc_read()` returns. -/
inductive Event where
  /-- A call of the interrupt handler. -/
  | edge (gpio events now : Nat)
  /-- One iteration of the `while (true)` loop. -/
  | cycle (raw_adc_y raw_adc_x : Nat)
  deriving DecidableEq

/-- The state after one step. -/
def step (s : State) : Event → State
  | Event.edge gpio events now => gpio_callback gpio events now s
  | Event.cycle raw_adc_y raw_adc_x => (main_loop s raw_adc_y raw_adc_x).1

/-- The state after a sequence of steps, the first step of the list first. -/
def run (s : State) : List Event → State
  | [] => s
  | e :: es => run (step s e) es

/-- The number of loop iterations in a sequence of steps. -/
def numCycles : List Event → Nat
  | [] => 0
  | Event.edge _ _ _ :: es => numCycles es
  | Event.cycle _ _ :: es => numCycles es + 1

/-! ## The unsigned 32-bit values before the narrowing assignments -/

/-- The `uint32_t` value of the right-hand side of line 207, before the conversion
to `uint16_t`. -/
def new_adc_y_u32 (calibrated : Nat) : Nat :=
  (u32 calibrated * u32 4095 % 4294967296) / u32 (4095 - Y_OFFSET)

/-- The `uint32_t` value of the right-hand side of line 219, before the assignment to
the `uint16_t` variable `brightness_red` (line 227 is the same for blue). -/
def brightness_low_u32 (v : Nat) : Nat :=
  (u32 (2048 - DEADZONE - (v : Int)) * u32 PWM_WRAP % 4294967296) / u32 (2048 - DEADZONE)

/-- The `uint32_t` value of the right-hand side of line 221, before the assignment to
the `uint16_t` variable `brightness_red` (line 229 is the same for blue). -/
def brightness_high_u32 (v : Nat) : Nat :=
  (u32 ((v : Int) - (2048 + DEADZONE)) * u32 PWM_WRAP % 4294967296) / u32 (2047 - DEADZONE)

/-- The `uint32_t` value of the right-hand side of line 246, before the assignment to
the `uint8_t` variable `pos_x`. -/
def pos_x_u32 (filtered_adc_x : Nat) : Nat :=
  (u32 filtered_adc_x * u32 (SSD1306_WIDTH - 8) % 4294967296) / u32 4095

/-- The `uint32_t` value of the right-hand side of line 247, before the assignment to
the `uint8_t` variable `pos_y`. -/
def pos_y_u32 (new_y : Nat) : Nat :=
  (u32 (4095 - (new_y : Int)) * u32 (SSD1306_HEIGHT - 8) % 4294967296) / u32 4095

/-! ## The brightness curve as the specification words it -/

/-- The piecewise brightness function of the specification with `center = 2048`,
`D = 50` and `WRAP = 255`: zero on `[1998, 2098]`, a linear ramp with floor division
on either side. -/
def spec_brightness (v : Nat) : Nat :=
  if 1998 ≤ v ∧ v ≤ 2098 then 0
  else if v < 1998 then (1998 - v) * 255 / 1998
  else (v - 2098) * 255 / 1997

/-! ## The calibration as the specification words it -/

/-- The calibrated value of the specification with `O = 52` and `MAX = 4095`:
subtract the offset and floor at `0`, cap at `MAX - O = 4043`, rescale with floor
division. -/
def spec_calibrate (y : Nat) : Nat :=
  (min (max ((y : Int) - 52) 0) 4043 * 4095 / 4043).toNat

/-! ## Conversions that lose nothing -/

theorem u32_natCast (n : Nat) (h : n < 4294967296) : u32 (n : Int) = n := by
  unfold u32; omega

theorem u16_natCast (n : Nat) (h : n < 65536) : u16 (n : Int) = n := by
  unfold u16; omega

theorem u8_natCast (n : Nat) (h : n < 256) : u8 (n : Int) = n := by
  unfold u8; omega

theorem u32_sub (a b : Nat) (hb : b ≤ a) (ha : a < 4294967296) :
    u32 ((a : Int) - (b : Int)) = a - b := by
  unfold u32; omega

/-! ## The loop body in terms of its statements -/

theorem main_loop_brightness_red (s : State) (raw_adc_y raw_adc_x : Nat) :
    (main_loop s raw_adc_y raw_adc_x).2.brightness_red
      = brightness_red (deadzone_x (ema raw_adc_x s.filtered_adc_x)) := by
  simp only [main_loop]

theorem main_loop_brightness_blue (s : State) (raw_adc_y raw_adc_x : Nat) :
    (main_loop s raw_adc_y raw_adc_x).2.brightness_blue
      = brightness_blue (deadzone_y (new_adc_y (calibrated_adc_y
          (ema raw_adc_y s.filtered_adc_y)))) := by
  simp only [main_loop]

/-! ## The brightness computation, branch by branch -/

theorem brightness_blue_eq_red (v : Nat) : brightness_blue v = brightness_red v := rfl

theorem deadzone_y_eq_x (v : Nat) : deadzone_y v = deadzone_x v := rfl

theorem deadzone_x_inside (v : Nat) (h1 : 1998 < v) (h2 : v < 2098) : deadzone_x v = 2048 := by
  have h : (v : Int) > 2048 - DEADZONE ∧ (v : Int) < 2048 + DEADZONE := by
    simp only [DEADZONE]; omega
  simp only [deadzone_x, h, and_self, if_true]

theorem deadzone_x_outside (v : Nat) (h : v ≤ 1998 ∨ 2098 ≤ v) : deadzone_x v = v := by
  have h : ¬ ((v : Int) > 2048 - DEADZONE ∧ (v : Int) < 2048 + DEADZONE) := by
    simp only [DEADZONE]; omega
  simp only [deadzone_x, h, if_false]

theorem brightness_red_low (v : Nat) (h : v ≤ 1998) :
    brightness_red v = (1998 - v) * 255 / 1998 := by
  have h1 : u32 (2048 - DEADZONE - (v : Int)) = 1998 - v := by
    have := u32_sub 1998 v h (by norm_num)
    simpa [DEADZONE] using this
  have h2 : u32 (PWM_WRAP : Int) = 255 := u32_natCast 255 (by norm_num)
  have h3 : u32 (2048 - DEADZONE) = 1998 := by decide
  have h4 : (1998 - v) * 255 % 4294967296 = (1998 - v) * 255 := Nat.mod_eq_of_lt (by omega)
  have h5 : (v : Int) < 2048 := by omega
  simp only [brightness_red, h5, if_true, h1, h2, h3, h4]
  exact u16_natCast _ (by omega)

theorem brightness_red_mid (v : Nat) (h1 : 2048 ≤ v) (h2 : v ≤ 2098) :
    brightness_red v = 0 := by
  have h5 : ¬ (v : Int) < 2048 := by omega
  have h6 : ¬ (v : Int) > 2048 + DEADZONE := by simp only [DEADZONE]; omega
  simp only [brightness_red, h5, h6, if_false]

theorem brightness_red_high (v : Nat) (h : 2098 < v) (hv : v ≤ 65535) :
    brightness_red v = (v - 2098) * 255 / 1997 := by
  have h1 : u32 ((v : Int) - (2048 + DEADZONE)) = v - 2098 := by
    have := u32_sub v 2098 (by omega) (by omega)
    simpa [DEADZONE] using this
  have h2 : u32 (PWM_WRAP : Int) = 255 := u32_natCast 255 (by norm_num)
  have h3 : u32 (2047 - DEADZONE) = 1997 := by decide
  have h4 : (v - 2098) * 255 % 4294967296 = (v - 2098) * 255 := Nat.mod_eq_of_lt (by omega)
  have h5 : ¬ (v : Int) < 2048 := by omega
  have h6 : (v : Int) > 2048 + DEADZONE := by simp only [DEADZONE]; omega
  simp only [brightness_red, h5, h6, if_true, if_false, h1, h2, h3, h4]
  exact u16_natCast _ (by omega)

/-- Dead zone followed by the brightness formula is the piecewise function of the
specification, for every 16-bit value. -/
theorem brightness_red_deadzone (v : Nat) (hv : v ≤ 65535) :
    brightness_red (deadzone_x v) = spec_brightness v := by
  unfold spec_brightness
  rcases Nat.lt_or_ge 1998 v with h1 | h1
  · rcases Nat.lt_or_ge v 2098 with h2 | h2
    · rw [deadzone_x_inside v h1 h2, brightness_red_mid 2048 (by norm_num) (by norm_num)]
      rw [if_pos ⟨by omega, by omega⟩]
    · rw [deadzone_x_outside v (Or.inr h2)]
      rcases Nat.eq_or_lt_of_le h2 with h3 | h3
      · rw [brightness_red_mid v (by omega) (by omega), if_pos ⟨by omega, by omega⟩]
      · rw [brightness_red_high v h3 hv, if_neg (by omega), if_neg (by omega)]
  · rw [deadzone_x_outside v (Or.inl h1), brightness_red_low v h1]
    rcases Nat.eq_or_lt_of_le h1 with h3 | h3
    · subst h3; decide
    · rw [if_neg (by omega), if_pos h3]

theorem spec_brightness_le (v : Nat) (hv : v ≤ 4095) : spec_brightness v ≤ 255 := by
  simp only [spec_brightness]
  split_ifs <;> omega

theorem spec_brightness_antitone_low (v1 v2 : Nat) (h : v1 < v2) (h2 : v2 ≤ 1998) :
    spec_brightness v2 ≤ spec_brightness v1 := by
  simp only [spec_brightness]
  split_ifs <;> omega

theorem spec_brightness_monotone_high (v1 v2 : Nat) (h : v1 < v2) (h1 : 2098 ≤ v1) :
    spec_brightness v1 ≤ spec_brightness v2 := by
  simp only [spec_brightness]
  split_ifs <;> omega

/-! ## Claims about the brightness curve -/

/-- C1: for every axis value `v` in `[0, 4095]` the brightness obtained by the dead
zone step followed by the brightness formula is the piecewise function of the
specification, `0` on `[1998, 2098]`, `(1998 - v) * 255 / 1998` below and
`(v - 2098) * 255 / 1997` above, for the red channel and for the blue channel;
and this is the brightness one loop iteration computes when `v` is its filtered X
value (red) or its rescaled Y value (blue). -/
theorem brightness_matches_spec (s : State) (raw_adc_y raw_adc_x v : Nat) (hv : v ≤ 4095) :
    brightness_red (deadzone_x v) = spec_brightness v ∧
    brightness_blue (deadzone_y v) = spec_brightness v ∧
    (ema raw_adc_x s.filtered_adc_x = v →
      (main_loop s raw_adc_y raw_adc_x).2.brightness_red = spec_brightness v) ∧
    (new_adc_y (calibrated_adc_y (ema raw_adc_y s.filtered_adc_y)) = v →
      (main_loop s raw_adc_y raw_adc_x).2.brightness_blue = spec_brightness v) := by
  have hr := brightness_red_deadzone v (by omega)
  refine ⟨hr, hr, ?_, ?_⟩
  · intro h
    rw [main_loop_brightness_red, h]; exact hr
  · intro h
    rw [main_loop_brightness_blue, h]; exact hr

/-- Witness for C1: from the initial state with raw samples `290` (Y) and `0` (X) the
filtered X value and the rescaled Y value are both `1843`, where the brightness is
`spec_brightness 1843 = 19`. -/
theorem brightness_matches_spec_witness :
    brightness_red (deadzone_x 1843) = spec_brightness 1843 ∧
    brightness_blue (deadzone_y 1843) = spec_brightness 1843 ∧
    (main_loop (main_init 0 0) 290 0).2.brightness_red = spec_brightness 1843 ∧
    (main_loop (main_init 0 0) 290 0).2.brightness_blue = spec_brightness 1843 ∧
    spec_brightness 1843 = 19 :=
  have h := brightness_matches_spec (main_init 0 0) 290 0 1843 (by decide)
  ⟨h.1, h.2.1, h.2.2.1 (by decide), h.2.2.2 (by decide), by decide⟩

theorem spec_brightness_deadzone (v : Nat) (h1 : 1998 ≤ v) (h2 : v ≤ 2098) :
    spec_brightness v = 0 := by
  simp only [spec_brightness, h1, h2, and_self, if_true]

/-- C2: for every axis value `v` in `[0, 4095]` with `|v - 2048| < 50` the brightness
computed for that axis (dead zone step followed by the brightness formula) is exactly
`0`, for the red/X and the blue/Y channel, also as one loop iteration computes it. -/
theorem brightness_zero_in_deadzone (s : State) (raw_adc_y raw_adc_x v : Nat) (hv : v ≤ 4095)
    (hd : |(v : Int) - 2048| < 50) :
    brightness_red (deadzone_x v) = 0 ∧
    brightness_blue (deadzone_y v) = 0 ∧
    (ema raw_adc_x s.filtered_adc_x = v →
      (main_loop s raw_adc_y raw_adc_x).2.brightness_red = 0) ∧
    (new_adc_y (calibrated_adc_y (ema raw_adc_y s.filtered_adc_y)) = v →
      (main_loop s raw_adc_y raw_adc_x).2.brightness_blue = 0) := by
  have hd' := abs_lt.mp hd
  have hr : brightness_red (deadzone_x v) = 0 := by
    rw [brightness_red_deadzone v (by omega)]
    exact spec_brightness_deadzone v (by omega) (by omega)
  refine ⟨hr, hr, ?_, ?_⟩
  · intro h
    rw [main_loop_brightness_red, h]; exact hr
  · intro h
    rw [main_loop_brightness_blue, h]; exact hr

/-- Witness for C2: from the initial state with raw samples `2410` (Y) and `2150` (X)
the filtered X value and the rescaled Y value are both `2058`, inside the dead zone. -/
theorem brightness_zero_in_deadzone_witness :
    brightness_red (deadzone_x 2058) = 0 ∧
    brightness_blue (deadzone_y 2058) = 0 ∧
    (main_loop (main_init 0 0) 2410 2150).2.brightness_red = 0 ∧
    (main_loop (main_init 0 0) 2410 2150).2.brightness_blue = 0 :=
  have h := brightness_zero_in_deadzone (main_init 0 0) 2410 2150 2058 (by decide) (by decide)
  ⟨h.1, h.2.1, h.2.2.1 (by decide), h.2.2.2 (by decide)⟩

/-- C3: for every axis value `v` in `[0, 4095]` the brightness lies in `[0, 255]`, so
it never exceeds `PWM_WRAP`; at `v = 0` it is `255` and at `v = 4095` it is at least
`254`; the bound also holds for the brightness one loop iteration computes from a
filtered X value or rescaled Y value `v`. -/
theorem brightness_within_pwm_wrap (s : State) (raw_adc_y raw_adc_x v : Nat)
    (hv : v ≤ 4095) :
    (brightness_red (deadzone_x v) ≤ PWM_WRAP ∧ brightness_blue (deadzone_y v) ≤ PWM_WRAP) ∧
    (brightness_red (deadzone_x 0) = 255 ∧ brightness_blue (deadzone_y 0) = 255) ∧
    (254 ≤ brightness_red (deadzone_x 4095) ∧ 254 ≤ brightness_blue (deadzone_y 4095)) ∧
    (ema raw_adc_x s.filtered_adc_x = v →
      (main_loop s raw_adc_y raw_adc_x).2.brightness_red ≤ PWM_WRAP) ∧
    (new_adc_y (calibrated_adc_y (ema raw_adc_y s.filtered_adc_y)) = v →
      (main_loop s raw_adc_y raw_adc_x).2.brightness_blue ≤ PWM_WRAP) := by
  have hr : brightness_red (deadzone_x v) ≤ PWM_WRAP := by
    rw [brightness_red_deadzone v (by omega)]
    exact spec_brightness_le v hv
  have h0 : brightness_red (deadzone_x 0) = 255 := by
    rw [brightness_red_deadzone 0 (by norm_num)]; decide
  have h1 : 254 ≤ brightness_red (deadzone_x 4095) := by
    rw [brightness_red_deadzone 4095 (by norm_num)]; decide
  refine ⟨⟨hr, hr⟩, ⟨h0, h0⟩, ⟨h1, h1⟩, ?_, ?_⟩
  · intro h
    rw [main_loop_brightness_red, h]; exact hr
  · intro h
    rw [main_loop_brightness_blue, h]; exact hr

/-- Witness for C3: the bound at `v = 1843`, which the first loop iteration reaches on
both axes with raw samples `290` (Y) and `0` (X). -/
theorem brightness_within_pwm_wrap_witness :
    (brightness_red (deadzone_x 1843) ≤ PWM_WRAP ∧
      brightness_blue (deadzone_y 1843) ≤ PWM_WRAP) ∧
    (main_loop (main_init 0 0) 290 0).2.brightness_red ≤ PWM_WRAP ∧
    (main_loop (main_init 0 0) 290 0).2.brightness_blue ≤ PWM_WRAP :=
  have h := brightness_within_pwm_wrap (main_init 0 0) 290 0 1843 (by decide)
  ⟨h.1, h.2.2.2.1 (by decide), h.2.2.2.2 (by decide)⟩

/-- C4: the brightness curve is monotonic on each ramp: for `v1 < v2 ≤ 1998` the
brightness at `v1` is at least the brightness at `v2`, and for
`2098 ≤ v1 < v2 ≤ 4095` the brightness at `v1` is at most the brightness at `v2`, for
both channels. -/
theorem brightness_monotone_on_ramps (v1 v2 : Nat) (h : v1 < v2) :
    (v2 ≤ 1998 →
      brightness_red (deadzone_x v2) ≤ brightness_red (deadzone_x v1) ∧
      brightness_blue (deadzone_y v2) ≤ brightness_blue (deadzone_y v1)) ∧
    (2098 ≤ v1 → v2 ≤ 4095 →
      brightness_red (deadzone_x v1) ≤ brightness_red (deadzone_x v2) ∧
      brightness_blue (deadzone_y v1) ≤ brightness_blue (deadzone_y v2)) := by
  constructor
  · intro h2
    have hr : brightness_red (deadzone_x v2) ≤ brightness_red (deadzone_x v1) := by
      rw [brightness_red_deadzone v1 (by omega), brightness_red_deadzone v2 (by omega)]
      exact spec_brightness_antitone_low v1 v2 h h2
    exact ⟨hr, hr⟩
  · intro h1 h2
    have hr : brightness_red (deadzone_x v1) ≤ brightness_red (deadzone_x v2) := by
      rw [brightness_red_deadzone v1 (by omega), brightness_red_deadzone v2 (by omega)]
      exact spec_brightness_monotone_high v1 v2 h h1
    exact ⟨hr, hr⟩

/-- Witness for C4: the two ends of the lower ramp and the two ends of the upper
ramp. -/
theorem brightness_monotone_on_ramps_witness :
    (brightness_red (deadzone_x 1998) ≤ brightness_red (deadzone_x 0) ∧
      brightness_blue (deadzone_y 1998) ≤ brightness_blue (deadzone_y 0)) ∧
    (brightness_red (deadzone_x 2098) ≤ brightness_red (deadzone_x 4095) ∧
      brightness_blue (deadzone_y 2098) ≤ brightness_blue (deadzone_y 4095)) :=
  ⟨(brightness_monotone_on_ramps 0 1998 (by decide)).1 (by decide),
   (brightness_monotone_on_ramps 2098 4095 (by decide)).2 (by decide) (by decide)⟩

/-! ## Calibration of the Y axis -/

theorem calibrated_adc_y_eq (y : Nat) (hy : y ≤ 65535) :
    calibrated_adc_y y = min (y - 52) 4043 := by
  have h4 : u16 (4095 - Y_OFFSET) = 4043 := by decide
  have h5 : (4095 - Y_OFFSET : Int) = 4043 := by decide
  rcases Nat.lt_or_ge y 52 with h | h
  · have h1 : ¬ ((y : Int) ≥ Y_OFFSET) := by simp only [Y_OFFSET]; omega
    simp only [calibrated_adc_y]
    rw [if_neg h1, h5, if_neg (by norm_num)]
    omega
  · have h1 : (y : Int) ≥ Y_OFFSET := by simp only [Y_OFFSET]; omega
    have h2 : u16 ((y : Int) - Y_OFFSET) = y - 52 := by
      have : ((y : Int) - Y_OFFSET) = ((y - 52 : Nat) : Int) := by
        simp only [Y_OFFSET]; omega
      rw [this]; exact u16_natCast _ (by omega)
    simp only [calibrated_adc_y]
    rw [if_pos h1, h2, h4, h5]
    split_ifs <;> omega

theorem new_adc_y_eq (c : Nat) (hc : c ≤ 4043) : new_adc_y c = c * 4095 / 4043 := by
  have h1 : u32 (c : Int) = c := u32_natCast c (by omega)
  have h2 : u32 4095 = 4095 := by decide
  have h3 : u32 (4095 - Y_OFFSET) = 4043 := by decide
  have h4 : c * 4095 % 4294967296 = c * 4095 := Nat.mod_eq_of_lt (by omega)
  simp only [new_adc_y, h1, h2, h3, h4]
  exact u16_natCast _ (by omega)

/-- The rescaled Y value as a function of the filtered Y value. -/
theorem new_adc_y_calibrated (y : Nat) (hy : y ≤ 65535) :
    new_adc_y (calibrated_adc_y y) = min (y - 52) 4043 * 4095 / 4043 := by
  rw [calibrated_adc_y_eq y hy, new_adc_y_eq _ (Nat.min_le_right _ _)]

/-- C5 (the code departs from the claim): at the biased rest reading
`2048 + Y_OFFSET = 2100` the offset-corrected value is `2048`, but line 207 rescales it
to `2048 * 4095 / 4043 = 2074`, not `2048`; in a loop iteration that holds the
filtered Y value at `2100` it is only the dead zone step that turns `2074` into
`2048`. -/
theorem rest_position_rescaled_to_2074 :
    calibrated_adc_y 2100 = 2048 ∧
    new_adc_y (calibrated_adc_y 2100) = 2074 ∧
    new_adc_y (calibrated_adc_y 2100) ≠ 2048 ∧
    (main_loop { main_init 0 0 with filtered_adc_y := 2100 } 2100 2048).1.filtered_adc_y
      = 2100 ∧
    (main_loop { main_init 0 0 with filtered_adc_y := 2100 } 2100 2048).2.calibrated_adc_y
      = 2048 ∧
    (main_loop { main_init 0 0 with filtered_adc_y := 2100 } 2100 2048).2.new_adc_y
      = deadzone_y 2074 := by
  decide

/-- C6: for every filtered Y reading `y` in `[0, 4095]` the rescaled value of line 207
is `floor(min(max(y - 52, 0), 4043) * 4095 / 4043)`; it lies in `[0, 4095]`, is
non-decreasing in `y`, is `0` exactly when `y ≤ 52`, and is `4095` at `y = 4095`. -/
theorem new_adc_y_spans_full_range (y y2 : Nat) (hy : y ≤ 4095) :
    new_adc_y (calibrated_adc_y y) = spec_calibrate y ∧
    new_adc_y (calibrated_adc_y y) ≤ 4095 ∧
    (y ≤ y2 → y2 ≤ 4095 → new_adc_y (calibrated_adc_y y) ≤ new_adc_y (calibrated_adc_y y2)) ∧
    (new_adc_y (calibrated_adc_y y) = 0 ↔ y ≤ 52) ∧
    new_adc_y (calibrated_adc_y 4095) = 4095 := by
  rw [new_adc_y_calibrated y (by omega)]
  refine ⟨?_, ?_, ?_, ?_, by decide⟩
  · unfold spec_calibrate; omega
  · omega
  · intro h1 h2
    rw [new_adc_y_calibrated y2 (by omega)]
    omega
  · omega

/-- Witness for C6: the readings `1000` and `3000`. -/
theorem new_adc_y_spans_full_range_witness :
    new_adc_y (calibrated_adc_y 1000) = spec_calibrate 1000 ∧
    new_adc_y (calibrated_adc_y 1000) ≤ 4095 ∧
    new_adc_y (calibrated_adc_y 1000) ≤ new_adc_y (calibrated_adc_y 3000) ∧
    (new_adc_y (calibrated_adc_y 1000) = 0 ↔ 1000 ≤ 52) ∧
    new_adc_y (calibrated_adc_y 4095) = 4095 :=
  have h := new_adc_y_spans_full_range 1000 3000 (by decide)
  ⟨h.1, h.2.1, h.2.2.1 (by decide) (by decide), h.2.2.2.1, h.2.2.2.2⟩

/-! ## The filter: rounding is monotone and exact on binary32 values -/

/-- The literal `0.1f`: `ALPHA` has a 24-bit significand and lies within a fifth of a
unit of one tenth, so it is the binary32 value nearest to one tenth. -/
theorem ALPHA_nearest_tenth :
    2 ^ 23 ≤ ALPHA ∧ ALPHA < 2 ^ 24 ∧ 10 * ALPHA = F32_ONE + 2 := by
  decide

/-- The constant `1.0f - ALPHA` evaluates to `15099494 * 2 ^ (-24)`. -/
theorem ONE_MINUS_ALPHA_eq : ONE_MINUS_ALPHA = 15099494 * 2 ^ 3 := by
  decide

theorem f32Shift_spec (fuel : Nat) : ∀ m : Nat, m < 2 ^ (24 + fuel) →
    m / 2 ^ f32Shift fuel m < 2 ^ 24 ∧ ∀ t, t < f32Shift fuel m → 2 ^ 24 ≤ m / 2 ^ t := by
  induction fuel with
  | zero =>
    intro m hm
    simp only [f32Shift]
    refine ⟨by simpa using hm, fun t ht => absurd ht (Nat.not_lt_zero t)⟩
  | succ k ih =>
    intro m hm
    by_cases h : m < 2 ^ 24
    · simp only [f32Shift, h, if_true]
      refine ⟨by simpa using h, fun t ht => absurd ht (Nat.not_lt_zero t)⟩
    · simp only [f32Shift, h, if_false]
      have hm2 : m / 2 < 2 ^ (24 + k) := by
        have : 2 ^ (24 + (k + 1)) = 2 * 2 ^ (24 + k) := by ring
        omega
      obtain ⟨h1, h2⟩ := ih (m / 2) hm2
      have key : ∀ t, m / 2 ^ (t + 1) = m / 2 / 2 ^ t := by
        intro t
        rw [Nat.div_div_eq_div_mul, pow_succ, Nat.mul_comm]
      refine ⟨by rw [key]; exact h1, ?_⟩
      intro t ht
      cases t with
      | zero => simpa using Nat.le_of_not_lt h
      | succ t => rw [key]; exact h2 t (by omega)

theorem f32Shift_self (m : Nat) :
    m / 2 ^ f32Shift m m < 2 ^ 24 ∧ ∀ t, t < f32Shift m m → 2 ^ 24 ≤ m / 2 ^ t := by
  apply f32Shift_spec
  calc m < 2 ^ m := Nat.lt_two_pow m
    _ ≤ 2 ^ (24 + m) := Nat.pow_le_pow_right (by norm_num) (by omega)

theorem f32Shift_mono (m n : Nat) (h : m ≤ n) : f32Shift m m ≤ f32Shift n n := by
  by_contra hlt
  have h1 := (f32Shift_self m).2 (f32Shift n n) (by omega)
  have h2 := (f32Shift_self n).1
  have h3 : m / 2 ^ f32Shift n n ≤ n / 2 ^ f32Shift n n := Nat.div_le_div_right h
  omega

theorem f32Shift_significand (m : Nat) (h : 0 < f32Shift m m) :
    2 ^ 23 ≤ m / 2 ^ f32Shift m m := by
  obtain ⟨k, hk⟩ : ∃ k, f32Shift m m = k + 1 := ⟨f32Shift m m - 1, by omega⟩
  have h1 := (f32Shift_self m).2 k (by omega)
  have h2 : m / 2 ^ (k + 1) = m / 2 ^ k / 2 := by
    rw [pow_succ, Nat.div_div_eq_div_mul]
  rw [hk, h2]
  omega

/-- Rounding at a fixed exponent `s`. -/
theorem roundF32_eq (m : Nat) :
    roundF32 m =
      if 2 * (m % 2 ^ f32Shift m m) > 2 ^ f32Shift m m ∨
          (2 * (m % 2 ^ f32Shift m m) = 2 ^ f32Shift m m ∧ m / 2 ^ f32Shift m m % 2 = 1)
      then (m / 2 ^ f32Shift m m + 1) * 2 ^ f32Shift m m
      else m / 2 ^ f32Shift m m * 2 ^ f32Shift m m := rfl

theorem roundF32_lower (m : Nat) : m / 2 ^ f32Shift m m * 2 ^ f32Shift m m ≤ roundF32 m := by
  rw [roundF32_eq]
  split_ifs
  · exact Nat.mul_le_mul_right _ (Nat.le_succ _)
  · exact Nat.le_refl _

theorem roundF32_upper (m : Nat) :
    roundF32 m ≤ (m / 2 ^ f32Shift m m + 1) * 2 ^ f32Shift m m := by
  rw [roundF32_eq]
  split_ifs
  · exact Nat.le_refl _
  · exact Nat.mul_le_mul_right _ (Nat.le_succ _)

theorem roundF32_mono (m n : Nat) (h : m ≤ n) : roundF32 m ≤ roundF32 n := by
  rcases Nat.eq_or_lt_of_le (f32Shift_mono m n h) with e | l
  · -- same exponent
    rw [roundF32_eq m, roundF32_eq n, e]
    have hP : 0 < 2 ^ f32Shift n n := Nat.two_pow_pos _
    generalize 2 ^ f32Shift n n = P at hP ⊢
    have hm := Nat.div_add_mod m P
    have hn := Nat.div_add_mod n P
    have hrm := Nat.mod_lt m hP
    have hrn := Nat.mod_lt n hP
    have hq : m / P ≤ n / P := Nat.div_le_div_right h
    generalize m / P = qm at hm hq ⊢
    generalize n / P = qn at hn hq ⊢
    generalize m % P = rm at hm hrm ⊢
    generalize n % P = rn at hn hrn ⊢
    have e1 : (qm + 1) * P = P * qm + P := by ring
    have e2 : (qn + 1) * P = P * qn + P := by ring
    have e3 : qm * P = P * qm := Nat.mul_comm _ _
    have e4 : qn * P = P * qn := Nat.mul_comm _ _
    rw [e1, e2, e3, e4]
    rcases Nat.eq_or_lt_of_le hq with e | l
    · subst e
      split_ifs <;> omega
    · have hl : P * qm + P ≤ P * qn := by
        have := Nat.mul_le_mul_left P (Nat.succ_le_of_lt l)
        rw [Nat.mul_succ] at this; exact this
      split_ifs <;> omega
  · -- the exponent of `n` is larger
    have h1 := roundF32_upper m
    have h2 := roundF32_lower n
    have h3 := (f32Shift_self m).1
    have h4 := f32Shift_significand n (by omega)
    have h5 : (m / 2 ^ f32Shift m m + 1) * 2 ^ f32Shift m m ≤ 2 ^ 24 * 2 ^ f32Shift m m :=
      Nat.mul_le_mul_right _ h3
    have h6 : 2 ^ 23 * 2 ^ f32Shift n n ≤ n / 2 ^ f32Shift n n * 2 ^ f32Shift n n :=
      Nat.mul_le_mul_right _ h4
    have h7 : 2 ^ 24 * 2 ^ f32Shift m m ≤ 2 ^ 23 * 2 ^ f32Shift n n := by
      rw [← pow_add, ← pow_add]
      exact Nat.pow_le_pow_right (by norm_num) (by omega)
    omega

theorem f32Shift_le (m e : Nat) (hm : m < 2 ^ (24 + e)) : f32Shift m m ≤ e := by
  by_contra hlt
  have h1 := (f32Shift_self m).2 e (by omega)
  have h2 : 2 ^ 24 * 2 ^ e ≤ m := (Nat.le_div_iff_mul_le (Nat.two_pow_pos e)).mp h1
  rw [pow_add] at hm
  omega

/-- A value with a significand below `2 ^ 24` is a binary32 value: rounding keeps it. -/
theorem roundF32_representable (k j : Nat) (hk : k < 2 ^ 24) :
    roundF32 (k * 2 ^ j) = k * 2 ^ j := by
  have hs : f32Shift (k * 2 ^ j) (k * 2 ^ j) ≤ j := by
    by_contra hlt
    have h1 := (f32Shift_self (k * 2 ^ j)).2 j (by omega)
    rw [Nat.mul_div_cancel _ (Nat.two_pow_pos j)] at h1
    omega
  have hdvd : 2 ^ f32Shift (k * 2 ^ j) (k * 2 ^ j) ∣ k * 2 ^ j :=
    Dvd.dvd.mul_left (pow_dvd_pow 2 hs) k
  have hmod : k * 2 ^ j % 2 ^ f32Shift (k * 2 ^ j) (k * 2 ^ j) = 0 :=
    Nat.mod_eq_zero_of_dvd hdvd
  have hpos : 0 < 2 ^ f32Shift (k * 2 ^ j) (k * 2 ^ j) := Nat.two_pow_pos _
  rw [roundF32_eq, hmod, if_neg (by omega)]
  exact Nat.div_mul_cancel hdvd

/-- Rounding moves a value below `2 ^ (24 + e)` by at most half of `2 ^ e`. -/
theorem roundF32_error (m e : Nat) (hm : m < 2 ^ (24 + e)) :
    2 * roundF32 m ≤ 2 * m + 2 ^ e ∧ 2 * m ≤ 2 * roundF32 m + 2 ^ e := by
  have hs := f32Shift_le m e hm
  have hpow : 2 ^ f32Shift m m ≤ 2 ^ e := Nat.pow_le_pow_right (by norm_num) hs
  have hP : 0 < 2 ^ f32Shift m m := Nat.two_pow_pos _
  rw [roundF32_eq]
  generalize 2 ^ f32Shift m m = P at hpow hP ⊢
  have hdm := Nat.div_add_mod m P
  have hr := Nat.mod_lt m hP
  generalize m / P = q at hdm ⊢
  generalize m % P = r at hdm hr ⊢
  have e1 : (q + 1) * P = P * q + P := by ring
  have e2 : q * P = P * q := Nat.mul_comm _ _
  rw [e1, e2]
  split_ifs <;> omega

/-- The filter step stays between one below any common lower bound and any common
upper bound of its two inputs. -/
theorem ema_bounds (raw filtered lo hi : Nat) (hlo1 : lo ≤ raw) (hlo2 : lo ≤ filtered)
    (hhi1 : raw ≤ hi) (hhi2 : filtered ≤ hi) (hhi : hi ≤ 4095) :
    lo ≤ ema raw filtered + 1 ∧ ema raw filtered ≤ hi := by
  have hB : ONE_MINUS_ALPHA = 120795952 := by decide
  have hA : ALPHA = 13421773 := rfl
  have hF : F32_ONE = 2 ^ 27 := by decide
  -- the two products and their rounding errors
  have h1 := roundF32_error (ALPHA * raw) 12 (by rw [hA]; norm_num; omega)
  have h2 := roundF32_error (ONE_MINUS_ALPHA * filtered) 15 (by rw [hB]; norm_num; omega)
  rw [hA] at h1
  rw [hB] at h2
  generalize hS : roundF32 (ALPHA * raw) + roundF32 (ONE_MINUS_ALPHA * filtered) = S
  rw [hA, hB] at hS
  norm_num at h1 h2
  -- the sum lies between two binary32 values
  have hup : S ≤ (hi * 2 ^ 12 + 1) * 2 ^ 15 := by norm_num; omega
  have hdn : (lo - 1) * 2 ^ 27 ≤ S := by norm_num; omega
  have hup' := roundF32_mono _ _ hup
  have hdn' := roundF32_mono _ _ hdn
  rw [roundF32_representable _ _ (by norm_num; omega)] at hup' hdn'
  have hq1 : roundF32 S / 2 ^ 27 ≤ hi := by
    have := Nat.div_le_div_right (c := 2 ^ 27) hup'
    have e : (hi * 2 ^ 12 + 1) * 2 ^ 15 / 2 ^ 27 = hi := by norm_num; omega
    omega
  have hq2 : lo - 1 ≤ roundF32 S / 2 ^ 27 := by
    have := Nat.div_le_div_right (c := 2 ^ 27) hdn'
    rwa [Nat.mul_div_cancel _ (Nat.two_pow_pos 27)] at this
  have he : ema raw filtered = roundF32 S / 2 ^ 27 := by
    unfold ema
    rw [hA, hB, hS, hF]
    exact u16_natCast _ (by omega)
  rw [he]
  omega

/-- C7 (as the code has it): for every previous filtered value and raw sample in
`[0, 4095]` the filter step never exceeds the larger of the two and falls at most `1`
below the smaller: its result lies in `[min(prev, raw) - 1, max(prev, raw)]`; in
particular `prev = raw = x` yields `x` or `x - 1`. -/
theorem ema_within_one_of_inputs (prev raw : Nat) (hp : prev ≤ 4095) (hr : raw ≤ 4095) :
    (min prev raw ≤ ema raw prev + 1 ∧ ema raw prev ≤ max prev raw) ∧
    (prev = raw → ema raw prev = raw ∨ ema raw prev + 1 = raw) := by
  obtain ⟨hlo, hhi⟩ := ema_bounds raw prev (min prev raw) (max prev raw)
    (Nat.min_le_right _ _) (Nat.min_le_left _ _) (Nat.le_max_right _ _) (Nat.le_max_left _ _)
    (by omega)
  refine ⟨⟨hlo, hhi⟩, ?_⟩
  intro e
  subst e
  simp only [Nat.min_self, Nat.max_self] at hlo hhi
  omega

/-- Witness for C7 (as the code has it): the first step from the initial filter value
`2048` with the raw sample `4095`. -/
theorem ema_within_one_of_inputs_witness :
    (min 2048 4095 ≤ ema 4095 2048 + 1 ∧ ema 4095 2048 ≤ max 2048 4095) ∧
    (ema 7 7 = 7 ∨ ema 7 7 + 1 = 7) :=
  ⟨(ema_within_one_of_inputs 2048 4095 (by decide) (by decide)).1,
   (ema_within_one_of_inputs 7 7 (by decide) (by decide)).2 rfl⟩

/-- C7 (counterexample to the claim as stated): with `prev = raw = 7` the products are
`0.1f * 7 = 11744051 * 2 ^ (-24)` and `0.9f * 7 = 13212057 * 2 ^ (-21)`, their sum
rounds to `14680063 * 2 ^ (-21) < 7`, and the conversion truncates to `6`, which is
below `min(prev, raw) = 7`. -/
theorem ema_falls_below_equal_inputs :
    ema 7 7 = 6 ∧ ¬ (min 7 7 ≤ ema 7 7 ∧ ema 7 7 ≤ max 7 7) := by
  decide

/-! ## The state carried between iterations, and the interrupt handler -/

theorem main_loop_filtered_adc_x (s : State) (raw_adc_y raw_adc_x : Nat) :
    (main_loop s raw_adc_y raw_adc_x).1.filtered_adc_x
      = deadzone_x (ema raw_adc_x s.filtered_adc_x) := by
  simp only [main_loop]

theorem main_loop_filtered_adc_y (s : State) (raw_adc_y raw_adc_x : Nat) :
    (main_loop s raw_adc_y raw_adc_x).1.filtered_adc_y = ema raw_adc_y s.filtered_adc_y := by
  simp only [main_loop]

/-- C8 (the code departs from the claim): from the initial state with raw X sample
`2150` the filter step gives `2058`, but the dead zone step assigns `2048` to
`filtered_adc_x` itself, so the value carried into the next iteration is `2048` and
not the filter output; the Y filter value is carried unchanged. -/
theorem filtered_adc_x_overwritten_by_deadzone :
    ema 2150 (main_init 0 0).filtered_adc_x = 2058 ∧
    (main_loop (main_init 0 0) 2048 2150).1.filtered_adc_x = 2048 ∧
    (main_loop (main_init 0 0) 2048 2150).1.filtered_adc_x
      ≠ ema 2150 (main_init 0 0).filtered_adc_x ∧
    (main_loop (main_init 0 0) 2048 2150).1.filtered_adc_y
      = ema 2048 (main_init 0 0).filtered_adc_y := by
  decide

theorem gpio_callback_js_rejected (s : State) (events now : Nat)
    (h : (now : Int) - (s.last_js_btn_time : Int) < 200000) :
    gpio_callback JOYSTICK_BTN_PIN events now s = s := by
  have h' : absolute_time_diff_us s.last_js_btn_time now < DEBOUNCE_DELAY_MS * 1000 := by
    simp only [absolute_time_diff_us, DEBOUNCE_DELAY_MS]; omega
  simp only [gpio_callback, if_true, h']

theorem gpio_callback_js_accepted (s : State) (events now : Nat)
    (h : 200000 ≤ (now : Int) - (s.last_js_btn_time : Int)) :
    gpio_callback JOYSTICK_BTN_PIN events now s =
      { s with
        last_js_btn_time := now
        led_green_on := !s.led_green_on
        border_style := u8 (((s.border_style : Int) + 1) % 2) } := by
  have h' : ¬ absolute_time_diff_us s.last_js_btn_time now < DEBOUNCE_DELAY_MS * 1000 := by
    simp only [absolute_time_diff_us, DEBOUNCE_DELAY_MS]; omega
  simp only [gpio_callback, if_true, if_false, h']

theorem gpio_callback_a_rejected (s : State) (events now : Nat)
    (h : (now : Int) - (s.last_btn_a_time : Int) < 200000) :
    gpio_callback BUTTON_A_PIN events now s = s := by
  have h' : absolute_time_diff_us s.last_btn_a_time now < DEBOUNCE_DELAY_MS * 1000 := by
    simp only [absolute_time_diff_us, DEBOUNCE_DELAY_MS]; omega
  have hne : ¬ BUTTON_A_PIN = JOYSTICK_BTN_PIN := by decide
  simp only [gpio_callback, if_true, if_false, h', hne]

theorem gpio_callback_a_accepted (s : State) (events now : Nat)
    (h : 200000 ≤ (now : Int) - (s.last_btn_a_time : Int)) :
    gpio_callback BUTTON_A_PIN events now s =
      if s.pwm_enabled then
        { s with last_btn_a_time := now, pwm_enabled := false, level_red := 0, level_blue := 0 }
      else { s with last_btn_a_time := now, pwm_enabled := true } := by
  have h' : ¬ absolute_time_diff_us s.last_btn_a_time now < DEBOUNCE_DELAY_MS * 1000 := by
    simp only [absolute_time_diff_us, DEBOUNCE_DELAY_MS]; omega
  have hne : ¬ BUTTON_A_PIN = JOYSTICK_BTN_PIN := by decide
  simp only [gpio_callback, if_true, if_false, h', hne]
  cases hp : s.pwm_enabled <;> simp

/-- C9: `gpio_callback` accepts an edge on a button (changes the state) if and only if
at least `200000` microseconds have elapsed since the time stamp of that button, which
an accepted edge sets to the current time; so when an edge at `t1` is accepted and a
second edge on the same button arrives at `t2 ≥ t1`, the button's flag is toggled once
by the first edge, and the second edge leaves the state as it is when
`t2 - t1 < 200000` and toggles the flag a second time when `t2 - t1 ≥ 200000`. -/
theorem debounce_accepts_after_quiet_period (s : State) (ev1 ev2 t1 t2 : Nat)
    (_h12 : t1 ≤ t2) :
    ((gpio_callback JOYSTICK_BTN_PIN ev1 t1 s ≠ s ↔
        200000 ≤ (t1 : Int) - (s.last_js_btn_time : Int)) ∧
      (gpio_callback BUTTON_A_PIN ev1 t1 s ≠ s ↔
        200000 ≤ (t1 : Int) - (s.last_btn_a_time : Int))) ∧
    (200000 ≤ (t1 : Int) - (s.last_js_btn_time : Int) →
      (gpio_callback JOYSTICK_BTN_PIN ev1 t1 s).led_green_on = (!s.led_green_on) ∧
      (gpio_callback JOYSTICK_BTN_PIN ev1 t1 s).last_js_btn_time = t1 ∧
      ((t2 : Int) - (t1 : Int) < 200000 →
        gpio_callback JOYSTICK_BTN_PIN ev2 t2 (gpio_callback JOYSTICK_BTN_PIN ev1 t1 s)
          = gpio_callback JOYSTICK_BTN_PIN ev1 t1 s) ∧
      (200000 ≤ (t2 : Int) - (t1 : Int) →
        (gpio_callback JOYSTICK_BTN_PIN ev2 t2
          (gpio_callback JOYSTICK_BTN_PIN ev1 t1 s)).led_green_on
          = (!(gpio_callback JOYSTICK_BTN_PIN ev1 t1 s).led_green_on))) ∧
    (200000 ≤ (t1 : Int) - (s.last_btn_a_time : Int) →
      (gpio_callback BUTTON_A_PIN ev1 t1 s).pwm_enabled = (!s.pwm_enabled) ∧
      (gpio_callback BUTTON_A_PIN ev1 t1 s).last_btn_a_time = t1 ∧
      ((t2 : Int) - (t1 : Int) < 200000 →
        gpio_callback BUTTON_A_PIN ev2 t2 (gpio_callback BUTTON_A_PIN ev1 t1 s)
          = gpio_callback BUTTON_A_PIN ev1 t1 s) ∧
      (200000 ≤ (t2 : Int) - (t1 : Int) →
        (gpio_callback BUTTON_A_PIN ev2 t2
          (gpio_callback BUTTON_A_PIN ev1 t1 s)).pwm_enabled
          = (!(gpio_callback BUTTON_A_PIN ev1 t1 s).pwm_enabled))) := by
  refine ⟨⟨?_, ?_⟩, ?_, ?_⟩
  · constructor
    · intro hne
      by_contra hlt
      exact hne (gpio_callback_js_rejected s ev1 t1 (by omega))
    · intro hacc heq
      have := congrArg State.led_green_on heq
      rw [gpio_callback_js_accepted s ev1 t1 hacc] at this
      cases hg : s.led_green_on <;> simp [hg] at this
  · constructor
    · intro hne
      by_contra hlt
      exact hne (gpio_callback_a_rejected s ev1 t1 (by omega))
    · intro hacc heq
      have := congrArg State.pwm_enabled heq
      rw [gpio_callback_a_accepted s ev1 t1 hacc] at this
      cases hg : s.pwm_enabled <;> simp [hg] at this
  · intro hacc
    have e1 := gpio_callback_js_accepted s ev1 t1 hacc
    have hl : (gpio_callback JOYSTICK_BTN_PIN ev1 t1 s).last_js_btn_time = t1 := by rw [e1]
    refine ⟨by rw [e1], hl, ?_, ?_⟩
    · intro hlt
      exact gpio_callback_js_rejected _ ev2 t2 (by rw [hl]; exact hlt)
    · intro hge
      rw [gpio_callback_js_accepted _ ev2 t2 (by rw [hl]; exact hge)]
  · intro hacc
    have e1 := gpio_callback_a_accepted s ev1 t1 hacc
    have hl : (gpio_callback BUTTON_A_PIN ev1 t1 s).last_btn_a_time = t1 := by
      rw [e1]; split_ifs <;> rfl
    refine ⟨by rw [e1]; cases hp : s.pwm_enabled <;> simp, hl, ?_, ?_⟩
    · intro hlt
      exact gpio_callback_a_rejected _ ev2 t2 (by rw [hl]; exact hlt)
    · intro hge
      rw [gpio_callback_a_accepted _ ev2 t2 (by rw [hl]; exact hge)]
      cases hp : (gpio_callback BUTTON_A_PIN ev1 t1 s).pwm_enabled <;> simp

/-- Witness for C9: from the initial state with boot time `0`, a first edge at
`200000` and a second edge at `300000` (dropped) or at `400000` (accepted). -/
theorem debounce_accepts_after_quiet_period_witness :
    (gpio_callback JOYSTICK_BTN_PIN 4 200000 (main_init 0 0)).led_green_on
      = (!(main_init 0 0).led_green_on) ∧
    gpio_callback JOYSTICK_BTN_PIN 4 300000 (gpio_callback JOYSTICK_BTN_PIN 4 200000 (main_init 0 0))
      = gpio_callback JOYSTICK_BTN_PIN 4 200000 (main_init 0 0) ∧
    (gpio_callback JOYSTICK_BTN_PIN 4 400000
      (gpio_callback JOYSTICK_BTN_PIN 4 200000 (main_init 0 0))).led_green_on
      = (!(gpio_callback JOYSTICK_BTN_PIN 4 200000 (main_init 0 0)).led_green_on) ∧
    (gpio_callback BUTTON_A_PIN 4 200000 (main_init 0 0)).pwm_enabled
      = (!(main_init 0 0).pwm_enabled) ∧
    gpio_callback BUTTON_A_PIN 4 300000 (gpio_callback BUTTON_A_PIN 4 200000 (main_init 0 0))
      = gpio_callback BUTTON_A_PIN 4 200000 (main_init 0 0) ∧
    (gpio_callback BUTTON_A_PIN 4 400000
      (gpio_callback BUTTON_A_PIN 4 200000 (main_init 0 0))).pwm_enabled
      = (!(gpio_callback BUTTON_A_PIN 4 200000 (main_init 0 0)).pwm_enabled) :=
  have h1 := debounce_accepts_after_quiet_period (main_init 0 0) 4 4 200000 300000 (by decide)
  have h2 := debounce_accepts_after_quiet_period (main_init 0 0) 4 4 200000 400000 (by decide)
  ⟨(h1.2.1 (by decide)).1, (h1.2.1 (by decide)).2.2.1 (by decide),
   (h2.2.1 (by decide)).2.2.2 (by decide),
   (h1.2.2 (by decide)).1, (h1.2.2 (by decide)).2.2.1 (by decide),
   (h2.2.2 (by decide)).2.2.2 (by decide)⟩

/-- C10: every accepted button-A edge negates `pwm_enabled`; when the new value is
false (in particular whenever the edge arrives with `pwm_enabled = true`) both PWM
levels are `0` after the handler, and when the new value is true the handler leaves
both PWM levels unchanged. -/
theorem button_a_toggles_pwm (s : State) (events now : Nat)
    (hacc : 200000 ≤ (now : Int) - (s.last_btn_a_time : Int)) :
    (gpio_callback BUTTON_A_PIN events now s).pwm_enabled = (!s.pwm_enabled) ∧
    ((gpio_callback BUTTON_A_PIN events now s).pwm_enabled = false →
      (gpio_callback BUTTON_A_PIN events now s).level_red = 0 ∧
      (gpio_callback BUTTON_A_PIN events now s).level_blue = 0) ∧
    (s.pwm_enabled = true →
      (gpio_callback BUTTON_A_PIN events now s).pwm_enabled = false ∧
      (gpio_callback BUTTON_A_PIN events now s).level_red = 0 ∧
      (gpio_callback BUTTON_A_PIN events now s).level_blue = 0) ∧
    ((gpio_callback BUTTON_A_PIN events now s).pwm_enabled = true →
      (gpio_callback BUTTON_A_PIN events now s).level_red = s.level_red ∧
      (gpio_callback BUTTON_A_PIN events now s).level_blue = s.level_blue) := by
  rw [gpio_callback_a_accepted s events now hacc]
  cases hp : s.pwm_enabled <;> simp

/-- Witness for C10: an accepted edge after one loop iteration with both raw samples
`0` (PWM enabled, levels `19` and `23`), and an accepted edge in a state with PWM
disabled. -/
theorem button_a_toggles_pwm_witness :
    ((main_loop (main_init 0 0) 0 0).1.level_red = 19 ∧
      (main_loop (main_init 0 0) 0 0).1.level_blue = 23) ∧
    ((gpio_callback BUTTON_A_PIN 4 200000 (main_loop (main_init 0 0) 0 0).1).pwm_enabled = false ∧
      (gpio_callback BUTTON_A_PIN 4 200000 (main_loop (main_init 0 0) 0 0).1).level_red = 0 ∧
      (gpio_callback BUTTON_A_PIN 4 200000 (main_loop (main_init 0 0) 0 0).1).level_blue = 0) ∧
    ((gpio_callback BUTTON_A_PIN 4 200000
        { main_init 0 0 with pwm_enabled := false, level_red := 7, level_blue := 9 }).level_red = 7 ∧
      (gpio_callback BUTTON_A_PIN 4 200000
        { main_init 0 0 with pwm_enabled := false, level_red := 7, level_blue := 9 }).level_blue
        = 9) :=
  ⟨by decide,
   (button_a_toggles_pwm (main_loop (main_init 0 0) 0 0).1 4 200000 (by decide)).2.2.1 (by decide),
   (button_a_toggles_pwm
      { main_init 0 0 with pwm_enabled := false, level_red := 7, level_blue := 9 } 4 200000
      (by decide)).2.2.2 (by decide)⟩

/-! ## The joystick button and the frame of the handler -/

theorem border_style_next (b : Nat) : u8 (((b : Int) + 1) % 2) = (b + 1) % 2 := by
  unfold u8; omega

theorem gpio_callback_other (gpio events now : Nat) (s : State)
    (h1 : gpio ≠ JOYSTICK_BTN_PIN) (h2 : gpio ≠ BUTTON_A_PIN) :
    gpio_callback gpio events now s = s := by
  simp only [gpio_callback, h1, h2, if_false]

/-- The three ways a call of the handler can end: nothing changed, an accepted
joystick-button edge, an accepted button-A edge. -/
theorem gpio_callback_cases (gpio events now : Nat) (s : State) :
    gpio_callback gpio events now s = s ∨
    (gpio = JOYSTICK_BTN_PIN ∧ 200000 ≤ (now : Int) - (s.last_js_btn_time : Int) ∧
      gpio_callback gpio events now s =
        { s with
          last_js_btn_time := now
          led_green_on := !s.led_green_on
          border_style := u8 (((s.border_style : Int) + 1) % 2) }) ∨
    (gpio = BUTTON_A_PIN ∧ 200000 ≤ (now : Int) - (s.last_btn_a_time : Int) ∧
      gpio_callback gpio events now s =
        if s.pwm_enabled then
          { s with last_btn_a_time := now, pwm_enabled := false, level_red := 0, level_blue := 0 }
        else { s with last_btn_a_time := now, pwm_enabled := true }) := by
  by_cases hj : gpio = JOYSTICK_BTN_PIN
  · subst hj
    by_cases hacc : 200000 ≤ (now : Int) - (s.last_js_btn_time : Int)
    · exact Or.inr (Or.inl ⟨rfl, hacc, gpio_callback_js_accepted s events now hacc⟩)
    · exact Or.inl (gpio_callback_js_rejected s events now (by omega))
  · by_cases ha : gpio = BUTTON_A_PIN
    · subst ha
      by_cases hacc : 200000 ≤ (now : Int) - (s.last_btn_a_time : Int)
      · exact Or.inr (Or.inr ⟨rfl, hacc, gpio_callback_a_accepted s events now hacc⟩)
      · exact Or.inl (gpio_callback_a_rejected s events now (by omega))
    · exact Or.inl (gpio_callback_other gpio events now s hj ha)

theorem gpio_callback_border_style_le (gpio events now : Nat) (s : State)
    (h : s.border_style ≤ 1) : (gpio_callback gpio events now s).border_style ≤ 1 := by
  rcases gpio_callback_cases gpio events now s with e | ⟨_, _, e⟩ | ⟨_, _, e⟩
  · rw [e]; exact h
  · rw [e]
    show u8 (((s.border_style : Int) + 1) % 2) ≤ 1
    rw [border_style_next]; omega
  · rw [e]; split_ifs <;> exact h

theorem step_border_style_le (s : State) (e : Event) (h : s.border_style ≤ 1) :
    (step s e).border_style ≤ 1 := by
  cases e with
  | edge gpio events now => exact gpio_callback_border_style_le gpio events now s h
  | cycle raw_adc_y raw_adc_x =>
    simp only [step, main_loop]
    split_ifs <;> exact h

theorem run_border_style_le (es : List Event) :
    ∀ s : State, s.border_style ≤ 1 → (run s es).border_style ≤ 1 := by
  induction es with
  | nil => intro s h; exact h
  | cons e es ih => intro s h; exact ih (step s e) (step_border_style_le s e h)

/-- C11: every accepted joystick-button edge negates `led_green_on` and advances
`border_style` cyclically in `{0, 1}` (`0` to `1`, `1` to `0`); in every state
reached from the initial state `border_style` is `0` or `1`; two accepted edges
restore both fields; and two presses within the debounce window toggle
`led_green_on` once and advance `border_style` once, the second press changing
nothing. -/
theorem joystick_button_toggles_green_and_border (s : State) (ev1 ev2 t1 t2 t_js t_a : Nat)
    (es : List Event) (hacc : 200000 ≤ (t1 : Int) - (s.last_js_btn_time : Int)) :
    ((gpio_callback JOYSTICK_BTN_PIN ev1 t1 s).led_green_on = (!s.led_green_on) ∧
      (s.border_style = 0 → (gpio_callback JOYSTICK_BTN_PIN ev1 t1 s).border_style = 1) ∧
      (s.border_style = 1 → (gpio_callback JOYSTICK_BTN_PIN ev1 t1 s).border_style = 0)) ∧
    ((run (main_init t_js t_a) es).border_style = 0 ∨
      (run (main_init t_js t_a) es).border_style = 1) ∧
    (s.border_style ≤ 1 → 200000 ≤ (t2 : Int) - (t1 : Int) →
      (gpio_callback JOYSTICK_BTN_PIN ev2 t2
        (gpio_callback JOYSTICK_BTN_PIN ev1 t1 s)).led_green_on = s.led_green_on ∧
      (gpio_callback JOYSTICK_BTN_PIN ev2 t2
        (gpio_callback JOYSTICK_BTN_PIN ev1 t1 s)).border_style = s.border_style) ∧
    ((t2 : Int) - (t1 : Int) < 200000 →
      gpio_callback JOYSTICK_BTN_PIN ev2 t2 (gpio_callback JOYSTICK_BTN_PIN ev1 t1 s)
        = gpio_callback JOYSTICK_BTN_PIN ev1 t1 s ∧
      (gpio_callback JOYSTICK_BTN_PIN ev2 t2
        (gpio_callback JOYSTICK_BTN_PIN ev1 t1 s)).led_green_on = (!s.led_green_on) ∧
      (gpio_callback JOYSTICK_BTN_PIN ev2 t2
        (gpio_callback JOYSTICK_BTN_PIN ev1 t1 s)).border_style = (s.border_style + 1) % 2) := by
  have e1 := gpio_callback_js_accepted s ev1 t1 hacc
  have hl : (gpio_callback JOYSTICK_BTN_PIN ev1 t1 s).last_js_btn_time = t1 := by rw [e1]
  have hg : (gpio_callback JOYSTICK_BTN_PIN ev1 t1 s).led_green_on = (!s.led_green_on) := by
    rw [e1]
  have hb : (gpio_callback JOYSTICK_BTN_PIN ev1 t1 s).border_style = (s.border_style + 1) % 2 := by
    rw [e1]; exact border_style_next _
  refine ⟨⟨hg, ?_, ?_⟩, ?_, ?_, ?_⟩
  · intro h0; rw [hb, h0]
  · intro h1; rw [hb, h1]
  · have := run_border_style_le es (main_init t_js t_a) (Nat.zero_le 1)
    omega
  · intro hle hge
    have e2 := gpio_callback_js_accepted (gpio_callback JOYSTICK_BTN_PIN ev1 t1 s) ev2 t2
      (by rw [hl]; exact hge)
    constructor
    · rw [e2]
      show (!(gpio_callback JOYSTICK_BTN_PIN ev1 t1 s).led_green_on) = s.led_green_on
      rw [hg]; simp
    · rw [e2]
      show u8 ((((gpio_callback JOYSTICK_BTN_PIN ev1 t1 s).border_style : Int) + 1) % 2)
        = s.border_style
      rw [border_style_next, hb]; omega
  · intro hlt
    have e2 := gpio_callback_js_rejected (gpio_callback JOYSTICK_BTN_PIN ev1 t1 s) ev2 t2
      (by rw [hl]; exact hlt)
    rw [e2]
    exact ⟨rfl, hg, hb⟩

/-- Witness for C11: from the initial state with boot time `0`, a first press at
`200000` followed by a press at `400000` (accepted) or at `250000` (dropped). -/
theorem joystick_button_toggles_green_and_border_witness :
    ((gpio_callback JOYSTICK_BTN_PIN 4 200000 (main_init 0 0)).led_green_on = true ∧
      (gpio_callback JOYSTICK_BTN_PIN 4 200000 (main_init 0 0)).border_style = 1) ∧
    ((gpio_callback JOYSTICK_BTN_PIN 4 400000
        (gpio_callback JOYSTICK_BTN_PIN 4 200000 (main_init 0 0))).led_green_on
        = (main_init 0 0).led_green_on ∧
      (gpio_callback JOYSTICK_BTN_PIN 4 400000
        (gpio_callback JOYSTICK_BTN_PIN 4 200000 (main_init 0 0))).border_style
        = (main_init 0 0).border_style) ∧
    gpio_callback JOYSTICK_BTN_PIN 4 250000 (gpio_callback JOYSTICK_BTN_PIN 4 200000 (main_init 0 0))
      = gpio_callback JOYSTICK_BTN_PIN 4 200000 (main_init 0 0) :=
  have h1 := joystick_button_toggles_green_and_border (main_init 0 0) 4 4 200000 400000 0 0 []
    (by decide)
  have h2 := joystick_button_toggles_green_and_border (main_init 0 0) 4 4 200000 250000 0 0 []
    (by decide)
  ⟨⟨h1.1.1, h1.1.2.1 rfl⟩, h1.2.2.1 (by decide) (by decide), (h2.2.2.2 (by decide)).1⟩

/-- C12: an edge changes only its own button's state. A rejected edge leaves the whole
state unchanged; an accepted joystick-button edge leaves `pwm_enabled`,
`last_btn_a_time`, both PWM levels, the filter variables and the green pin unchanged;
an accepted button-A edge leaves `led_green_on`, `border_style`, `last_js_btn_time`,
the filter variables and the green pin unchanged; a callback for any other gpio changes
nothing; and a call changes a time stamp only when it is an accepted edge of that
button, and then to the current time. -/
theorem edge_changes_only_its_button (s : State) (gpio events now : Nat) :
    -- rejected edges
    (((now : Int) - (s.last_js_btn_time : Int) < 200000 →
        gpio_callback JOYSTICK_BTN_PIN events now s = s) ∧
      ((now : Int) - (s.last_btn_a_time : Int) < 200000 →
        gpio_callback BUTTON_A_PIN events now s = s)) ∧
    -- an accepted joystick-button edge
    (200000 ≤ (now : Int) - (s.last_js_btn_time : Int) →
      (gpio_callback JOYSTICK_BTN_PIN events now s).pwm_enabled = s.pwm_enabled ∧
      (gpio_callback JOYSTICK_BTN_PIN events now s).last_btn_a_time = s.last_btn_a_time ∧
      (gpio_callback JOYSTICK_BTN_PIN events now s).level_red = s.level_red ∧
      (gpio_callback JOYSTICK_BTN_PIN events now s).level_blue = s.level_blue ∧
      (gpio_callback JOYSTICK_BTN_PIN events now s).filtered_adc_x = s.filtered_adc_x ∧
      (gpio_callback JOYSTICK_BTN_PIN events now s).filtered_adc_y = s.filtered_adc_y ∧
      (gpio_callback JOYSTICK_BTN_PIN events now s).led_green_pin = s.led_green_pin ∧
      (gpio_callback JOYSTICK_BTN_PIN events now s).last_js_btn_time = now) ∧
    -- an accepted button-A edge
    (200000 ≤ (now : Int) - (s.last_btn_a_time : Int) →
      (gpio_callback BUTTON_A_PIN events now s).led_green_on = s.led_green_on ∧
      (gpio_callback BUTTON_A_PIN events now s).border_style = s.border_style ∧
      (gpio_callback BUTTON_A_PIN events now s).last_js_btn_time = s.last_js_btn_time ∧
      (gpio_callback BUTTON_A_PIN events now s).filtered_adc_x = s.filtered_adc_x ∧
      (gpio_callback BUTTON_A_PIN events now s).filtered_adc_y = s.filtered_adc_y ∧
      (gpio_callback BUTTON_A_PIN events now s).led_green_pin = s.led_green_pin ∧
      (gpio_callback BUTTON_A_PIN events now s).last_btn_a_time = now) ∧
    -- any other gpio
    (gpio ≠ JOYSTICK_BTN_PIN → gpio ≠ BUTTON_A_PIN → gpio_callback gpio events now s = s) ∧
    -- the time stamps
    ((gpio_callback gpio events now s).last_js_btn_time = s.last_js_btn_time ∨
      (gpio = JOYSTICK_BTN_PIN ∧ 200000 ≤ (now : Int) - (s.last_js_btn_time : Int) ∧
        (gpio_callback gpio events now s).last_js_btn_time = now)) ∧
    ((gpio_callback gpio events now s).last_btn_a_time = s.last_btn_a_time ∨
      (gpio = BUTTON_A_PIN ∧ 200000 ≤ (now : Int) - (s.last_btn_a_time : Int) ∧
        (gpio_callback gpio events now s).last_btn_a_time = now)) := by
  refine ⟨⟨gpio_callback_js_rejected s events now, gpio_callback_a_rejected s events now⟩,
    ?_, ?_, gpio_callback_other gpio events now s, ?_, ?_⟩
  · intro hacc
    rw [gpio_callback_js_accepted s events now hacc]
    exact ⟨rfl, rfl, rfl, rfl, rfl, rfl, rfl, rfl⟩
  · intro hacc
    rw [gpio_callback_a_accepted s events now hacc]
    split_ifs <;> exact ⟨rfl, rfl, rfl, rfl, rfl, rfl, rfl⟩
  · rcases gpio_callback_cases gpio events now s with e | ⟨hg, hacc, e⟩ | ⟨_, _, e⟩
    · left; rw [e]
    · right; exact ⟨hg, hacc, by rw [e]⟩
    · left; rw [e]; split_ifs <;> rfl
  · rcases gpio_callback_cases gpio events now s with e | ⟨_, _, e⟩ | ⟨hg, hacc, e⟩
    · left; rw [e]
    · left; rw [e]
    · right; refine ⟨hg, hacc, ?_⟩; rw [e]; split_ifs <;> rfl

/-- Witness for C12: in the state after one loop iteration with raw samples `0`, at
time `100000` both buttons are still inside their quiet period, at time `200000` both
are accepted, and gpio `7` is no button. -/
theorem edge_changes_only_its_button_witness :
    (gpio_callback JOYSTICK_BTN_PIN 4 100000 (main_loop (main_init 0 0) 0 0).1
        = (main_loop (main_init 0 0) 0 0).1 ∧
      gpio_callback BUTTON_A_PIN 4 100000 (main_loop (main_init 0 0) 0 0).1
        = (main_loop (main_init 0 0) 0 0).1) ∧
    ((gpio_callback JOYSTICK_BTN_PIN 4 200000 (main_loop (main_init 0 0) 0 0).1).level_red
        = (main_loop (main_init 0 0) 0 0).1.level_red ∧
      (gpio_callback JOYSTICK_BTN_PIN 4 200000 (main_loop (main_init 0 0) 0 0).1).last_js_btn_time
        = 200000) ∧
    ((gpio_callback BUTTON_A_PIN 4 200000 (main_loop (main_init 0 0) 0 0).1).led_green_on
        = (main_loop (main_init 0 0) 0 0).1.led_green_on ∧
      (gpio_callback BUTTON_A_PIN 4 200000 (main_loop (main_init 0 0) 0 0).1).last_btn_a_time
        = 200000) ∧
    gpio_callback 7 4 200000 (main_loop (main_init 0 0) 0 0).1
      = (main_loop (main_init 0 0) 0 0).1 :=
  have h1 := edge_changes_only_its_button (main_loop (main_init 0 0) 0 0).1 7 4 100000
  have h2 := edge_changes_only_its_button (main_loop (main_init 0 0) 0 0).1 7 4 200000
  ⟨⟨h1.1.1 (by decide), h1.1.2 (by decide)⟩,
   ⟨(h2.2.1 (by decide)).2.2.1, (h2.2.1 (by decide)).2.2.2.2.2.2.2⟩,
   ⟨(h2.2.2.1 (by decide)).1, (h2.2.2.1 (by decide)).2.2.2.2.2.2⟩,
   h2.2.2.2.1 (by decide) (by decide)⟩

/-! ## The cursor position -/

theorem main_loop_pos_x (s : State) (raw_adc_y raw_adc_x : Nat) :
    (main_loop s raw_adc_y raw_adc_x).2.pos_x
      = pos_x (deadzone_x (ema raw_adc_x s.filtered_adc_x)) := by
  simp only [main_loop]

theorem main_loop_pos_y (s : State) (raw_adc_y raw_adc_x : Nat) :
    (main_loop s raw_adc_y raw_adc_x).2.pos_y
      = pos_y (deadzone_y (new_adc_y (calibrated_adc_y (ema raw_adc_y s.filtered_adc_y)))) := by
  simp only [main_loop]

theorem pos_x_u32_eq (x : Nat) (hx : x ≤ 4095) : pos_x_u32 x = x * 120 / 4095 := by
  have h1 : u32 (x : Int) = x := u32_natCast x (by omega)
  have h2 : u32 (SSD1306_WIDTH - 8) = 120 := by decide
  have h3 : u32 4095 = 4095 := by decide
  have h4 : x * 120 % 4294967296 = x * 120 := Nat.mod_eq_of_lt (by omega)
  simp only [pos_x_u32, h1, h2, h3, h4]

theorem pos_y_u32_eq (y : Nat) (hy : y ≤ 4095) : pos_y_u32 y = (4095 - y) * 56 / 4095 := by
  have h1 : u32 (4095 - (y : Int)) = 4095 - y := by
    have := u32_sub 4095 y hy (by norm_num)
    simpa using this
  have h2 : u32 (SSD1306_HEIGHT - 8) = 56 := by decide
  have h3 : u32 4095 = 4095 := by decide
  have h4 : (4095 - y) * 56 % 4294967296 = (4095 - y) * 56 := Nat.mod_eq_of_lt (by omega)
  simp only [pos_y_u32, h1, h2, h3, h4]

theorem pos_x_eq (x : Nat) (hx : x ≤ 4095) : pos_x x = x * 120 / 4095 := by
  have h : pos_x x = u8 (pos_x_u32 x : Nat) := rfl
  rw [h, pos_x_u32_eq x hx]
  exact u8_natCast _ (by omega)

theorem pos_y_eq (y : Nat) (hy : y ≤ 4095) : pos_y y = (4095 - y) * 56 / 4095 := by
  have h : pos_y y = u8 (pos_y_u32 y : Nat) := rfl
  rw [h, pos_y_u32_eq y hy]
  exact u8_natCast _ (by omega)

theorem deadzone_x_le (v : Nat) (hv : v ≤ 4095) : deadzone_x v ≤ 4095 := by
  rcases Nat.lt_or_ge 1998 v with h1 | h1
  · rcases Nat.lt_or_ge v 2098 with h2 | h2
    · rw [deadzone_x_inside v h1 h2]; norm_num
    · rw [deadzone_x_outside v (Or.inr h2)]; exact hv
  · rw [deadzone_x_outside v (Or.inl h1)]; exact hv

theorem deadzone_x_mono (v w : Nat) (h : v ≤ w) : deadzone_x v ≤ deadzone_x w := by
  have hv : deadzone_x v = if 1998 < v ∧ v < 2098 then 2048 else v := by
    by_cases c : 1998 < v ∧ v < 2098
    · rw [if_pos c, deadzone_x_inside v c.1 c.2]
    · rw [if_neg c, deadzone_x_outside v (by omega)]
  have hw : deadzone_x w = if 1998 < w ∧ w < 2098 then 2048 else w := by
    by_cases c : 1998 < w ∧ w < 2098
    · rw [if_pos c, deadzone_x_inside w c.1 c.2]
    · rw [if_neg c, deadzone_x_outside w (by omega)]
  rw [hv, hw]
  split_ifs <;> omega

/-- C13: for every filtered X value `x` and rescaled Y value `y` in `[0, 4095]` the
cursor position the cycle computes satisfies `pos_x ≤ 120` and `pos_y ≤ 56`, so the
8x8 marker lies inside the 128x64 canvas; `pos_x` is non-decreasing in `x` and
`pos_y` is non-increasing in `y`; and these are the positions one loop iteration
computes from its filtered X value and its rescaled Y value. -/
theorem cursor_inside_canvas (s : State) (raw_adc_y raw_adc_x x x2 y y2 : Nat)
    (hx : x ≤ 4095) (hy : y ≤ 4095) :
    (pos_x (deadzone_x x) ≤ 120 ∧ pos_y (deadzone_y y) ≤ 56) ∧
    ((pos_x (deadzone_x x) : Int) + 8 ≤ SSD1306_WIDTH ∧
      (pos_y (deadzone_y y) : Int) + 8 ≤ SSD1306_HEIGHT) ∧
    (x ≤ x2 → x2 ≤ 4095 → pos_x (deadzone_x x) ≤ pos_x (deadzone_x x2)) ∧
    (y ≤ y2 → y2 ≤ 4095 → pos_y (deadzone_y y2) ≤ pos_y (deadzone_y y)) ∧
    (ema raw_adc_x s.filtered_adc_x = x →
      (main_loop s raw_adc_y raw_adc_x).2.pos_x = pos_x (deadzone_x x)) ∧
    (new_adc_y (calibrated_adc_y (ema raw_adc_y s.filtered_adc_y)) = y →
      (main_loop s raw_adc_y raw_adc_x).2.pos_y = pos_y (deadzone_y y)) := by
  have dx := deadzone_x_le x hx
  have dy : deadzone_y y ≤ 4095 := deadzone_x_le y hy
  have px : pos_x (deadzone_x x) ≤ 120 := by rw [pos_x_eq _ dx]; omega
  have py : pos_y (deadzone_y y) ≤ 56 := by rw [pos_y_eq _ dy]; omega
  refine ⟨⟨px, py⟩, ⟨?_, ?_⟩, ?_, ?_, ?_, ?_⟩
  · simp only [SSD1306_WIDTH]; omega
  · simp only [SSD1306_HEIGHT]; omega
  · intro h1 h2
    have := deadzone_x_mono x x2 h1
    rw [pos_x_eq _ dx, pos_x_eq _ (deadzone_x_le x2 h2)]
    omega
  · intro h1 h2
    have : deadzone_y y ≤ deadzone_y y2 := deadzone_x_mono y y2 h1
    have dy2 : deadzone_y y2 ≤ 4095 := deadzone_x_le y2 h2
    rw [pos_y_eq _ dy, pos_y_eq _ dy2]
    omega
  · intro h; rw [main_loop_pos_x, h]
  · intro h; rw [main_loop_pos_y, h]

/-- Witness for C13: the filtered X values `1843` and `3000` and the rescaled Y values
`1843` and `3000`; the first loop iteration with raw samples `290` (Y) and `0` (X)
has filtered X value `1843` and rescaled Y value `1843`. -/
theorem cursor_inside_canvas_witness :
    (pos_x (deadzone_x 1843) ≤ 120 ∧ pos_y (deadzone_y 1843) ≤ 56) ∧
    pos_x (deadzone_x 1843) ≤ pos_x (deadzone_x 3000) ∧
    pos_y (deadzone_y 3000) ≤ pos_y (deadzone_y 1843) ∧
    (main_loop (main_init 0 0) 290 0).2.pos_x = pos_x (deadzone_x 1843) ∧
    (main_loop (main_init 0 0) 290 0).2.pos_y = pos_y (deadzone_y 1843) :=
  have h := cursor_inside_canvas (main_init 0 0) 290 0 1843 3000 1843 3000 (by decide)
    (by decide)
  ⟨h.1, h.2.2.1 (by decide) (by decide), h.2.2.2.1 (by decide) (by decide),
   h.2.2.2.2.1 (by decide), h.2.2.2.2.2 (by decide)⟩

/-- C14 (the code departs from the claim): in the cycle from the initial state with
raw samples `(2048, 2048)` the filtered values are `(2048, 2048)`, both brightnesses
are `0` and `pos_x` is `60`, but `pos_y` is `(4095 - 2048) * 56 / 4095 = 27`, one row
above the centre row `(64 - 8) / 2 = 28`. -/
theorem centre_marker_one_row_high :
    (main_loop (main_init 0 0) 2048 2048).1.filtered_adc_x = 2048 ∧
    (main_loop (main_init 0 0) 2048 2048).1.filtered_adc_y = 2048 ∧
    (main_loop (main_init 0 0) 2048 2048).2.brightness_red = 0 ∧
    (main_loop (main_init 0 0) 2048 2048).2.brightness_blue = 0 ∧
    (main_loop (main_init 0 0) 2048 2048).2.pos_x = 60 ∧
    (main_loop (main_init 0 0) 2048 2048).2.pos_y = 27 ∧
    (main_loop (main_init 0 0) 2048 2048).2.pos_y ≠ 28 ∧
    (main_loop (main_init 0 0) 2048 2048).1 =
      { main_init 0 0 with filtered_adc_x := 2048, filtered_adc_y := 2048 } := by
  decide

/-! ## The X filter over many cycles -/

theorem gpio_callback_filtered_adc_x (gpio events now : Nat) (s : State) :
    (gpio_callback gpio events now s).filtered_adc_x = s.filtered_adc_x := by
  rcases gpio_callback_cases gpio events now s with e | ⟨_, _, e⟩ | ⟨_, _, e⟩
  · rw [e]
  · rw [e]
  · rw [e]; split_ifs <;> rfl

/-- In a run whose loop iterations all read the raw X sample `v`, the filtered X value
is the dead-zoned filter step applied once per loop iteration. -/
theorem run_filtered_adc_x (v : Nat) (es : List Event) :
    ∀ s : State, (∀ ry rx, Event.cycle ry rx ∈ es → rx = v) →
      (run s es).filtered_adc_x
        = (fun x => deadzone_x (ema v x))^[numCycles es] s.filtered_adc_x := by
  induction es with
  | nil => intro s _; rfl
  | cons e es ih =>
    intro s h
    have h' : ∀ ry rx, Event.cycle ry rx ∈ es → rx = v :=
      fun ry rx hm => h ry rx (List.mem_cons_of_mem _ hm)
    cases e with
    | edge gpio events now =>
      show (run (gpio_callback gpio events now s) es).filtered_adc_x = _
      rw [ih _ h', gpio_callback_filtered_adc_x]
      rfl
    | cycle ry rx =>
      have hrx : rx = v := h ry rx (List.mem_cons_self _ _)
      subst hrx
      show (run (main_loop s ry rx).1 es).filtered_adc_x = _
      rw [ih _ h', main_loop_filtered_adc_x]
      rfl

theorem iterate_reaches_fixed {f : Nat → Nat} {x c : Nat} (N : Nat) (hN : f^[N] x = c)
    (hc : f c = c) (n : Nat) (hn : N ≤ n) : f^[n] x = c := by
  obtain ⟨k, rfl⟩ := Nat.exists_eq_add_of_le hn
  rw [Nat.add_comm, Function.iterate_add_apply, hN]
  exact Function.iterate_fixed hc k

theorem numCycles_replicate_cycle (n ry rx : Nat) :
    numCycles (List.replicate n (Event.cycle ry rx)) = n := by
  induction n with
  | zero => rfl
  | succ k ih => simp only [List.replicate_succ, numCycles, ih]

theorem raw_x_of_replicate_cycle (n ry0 rx0 : Nat) :
    ∀ ry rx, Event.cycle ry rx ∈ List.replicate n (Event.cycle ry0 rx0) → rx = rx0 := by
  intro ry rx h
  have := List.eq_of_mem_replicate h
  injection this

set_option maxRecDepth 100000 in
/-- With the raw X sample `0` the filtered X value falls from `2048` to `0` in `57` loop
iterations. -/
theorem filter_x_zero_after_57 : (fun x => deadzone_x (ema 0 x))^[57] 2048 = 0 := by
  decide

set_option maxRecDepth 100000 in
/-- With the raw X sample `4095` the filtered X value rises from `2048` to `4086` in
`56` loop iterations. -/
theorem filter_x_4086_after_56 : (fun x => deadzone_x (ema 4095 x))^[56] 2048 = 4086 := by
  decide

/-- C15: when the filtered X value is `2048` and every loop iteration reads the raw X
sample `0` (with any raw Y samples and any button edges in between), the filtered X
value is `0` after `57` loop iterations and after any larger number; and in every
loop iteration from the 57th on the filtered X value is `0`, the red brightness is
`255 = PWM_WRAP` and `pos_x` is `0`. -/
theorem lower_extreme_reaches_zero (s : State) (es : List Event) (raw_adc_y : Nat)
    (h0 : s.filtered_adc_x = 2048) (hraw : ∀ ry rx, Event.cycle ry rx ∈ es → rx = 0)
    (hn : 56 ≤ numCycles es) :
    (57 ≤ numCycles es → (run s es).filtered_adc_x = 0) ∧
    (main_loop (run s es) raw_adc_y 0).1.filtered_adc_x = 0 ∧
    (main_loop (run s es) raw_adc_y 0).2.brightness_red = PWM_WRAP ∧
    (main_loop (run s es) raw_adc_y 0).2.pos_x = 0 := by
  have hrun := run_filtered_adc_x 0 es s hraw
  rw [h0] at hrun
  have hfix : (fun x => deadzone_x (ema 0 x)) 0 = 0 := by decide
  have hnext : deadzone_x (ema 0 (run s es).filtered_adc_x) = 0 := by
    rw [hrun]
    have := iterate_reaches_fixed 57 filter_x_zero_after_57 hfix (numCycles es + 1) (by omega)
    rwa [Function.iterate_succ_apply'] at this
  refine ⟨?_, ?_, ?_, ?_⟩
  · intro h
    rw [hrun]
    exact iterate_reaches_fixed 57 filter_x_zero_after_57 hfix (numCycles es) h
  · rw [main_loop_filtered_adc_x, hnext]
  · rw [main_loop_brightness_red, hnext]; decide
  · rw [main_loop_pos_x, hnext]; decide

/-- Witness for C15: from the initial state, `57` loop iterations with raw samples
`2048` (Y) and `0` (X). -/
theorem lower_extreme_reaches_zero_witness :
    (run (main_init 0 0) (List.replicate 57 (Event.cycle 2048 0))).filtered_adc_x = 0 ∧
    (main_loop (run (main_init 0 0) (List.replicate 57 (Event.cycle 2048 0))) 2048 0).1.filtered_adc_x
      = 0 ∧
    (main_loop (run (main_init 0 0) (List.replicate 57 (Event.cycle 2048 0))) 2048 0).2.brightness_red
      = PWM_WRAP ∧
    (main_loop (run (main_init 0 0) (List.replicate 57 (Event.cycle 2048 0))) 2048 0).2.pos_x = 0 :=
  have h := lower_extreme_reaches_zero (main_init 0 0) (List.replicate 57 (Event.cycle 2048 0))
    2048 rfl (raw_x_of_replicate_cycle 57 2048 0)
    (by rw [numCycles_replicate_cycle]; decide)
  ⟨h.1 (by rw [numCycles_replicate_cycle]), h.2.1, h.2.2.1, h.2.2.2⟩

/-- The filter step before the conversion to `uint16_t`, which loses nothing. -/
theorem ema_eq (raw filtered : Nat) (hr : raw ≤ 4095) (hf : filtered ≤ 4095) :
    ema raw filtered =
      roundF32 (roundF32 (ALPHA * raw) + roundF32 (ONE_MINUS_ALPHA * filtered)) / F32_ONE := by
  unfold ema
  apply u16_natCast
  have h1 : roundF32 (ALPHA * raw) ≤ roundF32 (ALPHA * 4095) :=
    roundF32_mono _ _ (Nat.mul_le_mul_left _ hr)
  have h2 : roundF32 (ONE_MINUS_ALPHA * filtered) ≤ roundF32 (ONE_MINUS_ALPHA * 4095) :=
    roundF32_mono _ _ (Nat.mul_le_mul_left _ hf)
  have h3 := roundF32_mono _ _ (Nat.add_le_add h1 h2)
  have h4 : roundF32 (roundF32 (ALPHA * 4095) + roundF32 (ONE_MINUS_ALPHA * 4095)) / F32_ONE
      = 4095 := by decide
  have h5 := Nat.div_le_div_right (c := F32_ONE) h3
  omega

/-- The filter step is monotone in the raw sample and in the filtered value. -/
theorem ema_mono (r1 r2 f1 f2 : Nat) (hr : r1 ≤ r2) (hf : f1 ≤ f2) (hr2 : r2 ≤ 4095)
    (hf2 : f2 ≤ 4095) : ema r1 f1 ≤ ema r2 f2 := by
  rw [ema_eq r1 f1 (by omega) (by omega), ema_eq r2 f2 hr2 hf2]
  apply Nat.div_le_div_right
  apply roundF32_mono
  exact Nat.add_le_add (roundF32_mono _ _ (Nat.mul_le_mul_left _ hr))
    (roundF32_mono _ _ (Nat.mul_le_mul_left _ hf))

/-- With the raw X sample `4095`, a filtered X value in `[2048, 4086]` stays there. -/
theorem filter_x_upper_invariant (x : Nat) (h1 : 2048 ≤ x) (h2 : x ≤ 4086) :
    2048 ≤ deadzone_x (ema 4095 x) ∧ deadzone_x (ema 4095 x) ≤ 4086 := by
  have hlo : ema 4095 2048 ≤ ema 4095 x :=
    ema_mono 4095 4095 2048 x (Nat.le_refl _) h1 (Nat.le_refl _) (by omega)
  have hhi : ema 4095 x ≤ ema 4095 4086 :=
    ema_mono 4095 4095 x 4086 (Nat.le_refl _) h2 (Nat.le_refl _) (by norm_num)
  have e1 : ema 4095 2048 = 2252 := by decide
  have e2 : ema 4095 4086 = 4086 := by decide
  rw [deadzone_x_outside _ (Or.inr (by omega))]
  omega

theorem filter_x_upper_iterate (n : Nat) :
    2048 ≤ (fun x => deadzone_x (ema 4095 x))^[n] 2048 ∧
    (fun x => deadzone_x (ema 4095 x))^[n] 2048 ≤ 4086 := by
  induction n with
  | zero => exact ⟨Nat.le_refl _, by norm_num⟩
  | succ k ih =>
    rw [Function.iterate_succ_apply']
    exact filter_x_upper_invariant _ ih.1 ih.2

theorem brightness_red_le_253 (v : Nat) (h1 : 2048 ≤ v) (h2 : v ≤ 4086) :
    brightness_red v ≤ 253 := by
  rcases Nat.lt_or_ge 2098 v with h | h
  · rw [brightness_red_high v h (by omega)]; omega
  · rw [brightness_red_mid v h1 h]; omega

/-- C16 (the code departs from the claim): from the initial state with the raw X sample
`4095` in every loop iteration, the filtered X value never exceeds `4086` and the red
brightness of every loop iteration is at most `253`; from the 56th loop iteration on the
filtered X value is `4086` and the red brightness is `(4086 - 2098) * 255 / 1997 = 253`,
so the maximum `255` is never reached. -/
theorem upper_extreme_stays_below_full (t_js t_a n raw_adc_y : Nat) :
    (run (main_init t_js t_a) (List.replicate n (Event.cycle raw_adc_y 4095))).filtered_adc_x
      ≤ 4086 ∧
    (main_loop (run (main_init t_js t_a) (List.replicate n (Event.cycle raw_adc_y 4095)))
      raw_adc_y 4095).2.brightness_red ≤ 253 ∧
    (run (main_init t_js t_a)
      (List.replicate (n + 56) (Event.cycle raw_adc_y 4095))).filtered_adc_x = 4086 ∧
    (main_loop (run (main_init t_js t_a) (List.replicate (n + 56) (Event.cycle raw_adc_y 4095)))
      raw_adc_y 4095).2.brightness_red = 253 := by
  have hrun : ∀ k, (run (main_init t_js t_a)
      (List.replicate k (Event.cycle raw_adc_y 4095))).filtered_adc_x
      = (fun x => deadzone_x (ema 4095 x))^[k] 2048 := by
    intro k
    have := run_filtered_adc_x 4095 (List.replicate k (Event.cycle raw_adc_y 4095))
      (main_init t_js t_a) (raw_x_of_replicate_cycle k raw_adc_y 4095)
    rw [numCycles_replicate_cycle] at this
    exact this
  have hfix : (fun x => deadzone_x (ema 4095 x)) 4086 = 4086 := by decide
  have h56 : (fun x => deadzone_x (ema 4095 x))^[n + 56] 2048 = 4086 :=
    iterate_reaches_fixed 56 filter_x_4086_after_56 hfix (n + 56) (by omega)
  refine ⟨?_, ?_, ?_, ?_⟩
  · rw [hrun]; exact (filter_x_upper_iterate n).2
  · rw [main_loop_brightness_red, hrun]
    have := filter_x_upper_iterate (n + 1)
    rw [Function.iterate_succ_apply'] at this
    exact brightness_red_le_253 _ this.1 this.2
  · rw [hrun]; exact h56
  · rw [main_loop_brightness_red, hrun, h56]; decide

/-! ## Symmetry of the brightness curve -/

theorem spec_brightness_near_symmetric (d : Nat) (hd : d ≤ 2047) :
    spec_brightness (2048 - d) ≤ spec_brightness (2048 + d) ∧
    spec_brightness (2048 + d) ≤ spec_brightness (2048 - d) + 1 := by
  simp only [spec_brightness]
  split_ifs <;> omega

/-- C17 (as the code has it): for every displacement `d` in `[0, 2047]` the brightness
at `2048 + d` is the brightness at `2048 - d` or one more, on both channels: the two
ramps mirror each other up to one count, the upper ramp (divisor `1997`) never below
the lower ramp (divisor `1998`). -/
theorem brightness_symmetric_within_one (d : Nat) (hd : d ≤ 2047) :
    (brightness_red (deadzone_x (2048 - d)) ≤ brightness_red (deadzone_x (2048 + d)) ∧
      brightness_red (deadzone_x (2048 + d)) ≤ brightness_red (deadzone_x (2048 - d)) + 1) ∧
    (brightness_blue (deadzone_y (2048 - d)) ≤ brightness_blue (deadzone_y (2048 + d)) ∧
      brightness_blue (deadzone_y (2048 + d)) ≤ brightness_blue (deadzone_y (2048 - d)) + 1) := by
  have h : brightness_red (deadzone_x (2048 - d)) ≤ brightness_red (deadzone_x (2048 + d)) ∧
      brightness_red (deadzone_x (2048 + d)) ≤ brightness_red (deadzone_x (2048 - d)) + 1 := by
    rw [brightness_red_deadzone (2048 - d) (by omega),
      brightness_red_deadzone (2048 + d) (by omega)]
    exact spec_brightness_near_symmetric d hd
  exact ⟨h, h⟩

/-- Witness for C17 (as the code has it): the displacement `1000`, where both sides
are `121`, and the displacement `2047`, where they are `254` and `255`. -/
theorem brightness_symmetric_within_one_witness :
    (brightness_red (deadzone_x (2048 - 1000)) ≤ brightness_red (deadzone_x (2048 + 1000)) ∧
      brightness_red (deadzone_x (2048 + 1000)) ≤ brightness_red (deadzone_x (2048 - 1000)) + 1) ∧
    (brightness_blue (deadzone_y (2048 - 2047)) ≤ brightness_blue (deadzone_y (2048 + 2047)) ∧
      brightness_blue (deadzone_y (2048 + 2047))
        ≤ brightness_blue (deadzone_y (2048 - 2047)) + 1) :=
  ⟨(brightness_symmetric_within_one 1000 (by decide)).1,
   (brightness_symmetric_within_one 2047 (by decide)).2⟩

/-- C17 (counterexample to the claim as stated): at the displacement `d = 2047` the
brightness at `v = 1` is `1997 * 255 / 1998 = 254` and the brightness at `v = 4095` is
`1997 * 255 / 1997 = 255`, on both channels. -/
theorem brightness_not_symmetric_at_extremes :
    brightness_red (deadzone_x (2048 - 2047)) = 254 ∧
    brightness_red (deadzone_x (2048 + 2047)) = 255 ∧
    brightness_blue (deadzone_y (2048 - 2047)) = 254 ∧
    brightness_blue (deadzone_y (2048 + 2047)) = 255 ∧
    ¬ (brightness_red (deadzone_x (2048 - 2047)) = brightness_red (deadzone_x (2048 + 2047))) := by
  decide

/-! ## The integer arithmetic of one cycle -/

/-- The narrowing assignments of the cycle, in terms of the values before narrowing. -/
theorem narrowing_assignments (c v : Nat) :
    new_adc_y c = u16 (new_adc_y_u32 c : Nat) ∧
    brightness_red v =
      (if (v : Int) < 2048 then u16 (brightness_low_u32 v : Nat)
       else if (v : Int) > 2048 + DEADZONE then u16 (brightness_high_u32 v : Nat) else 0) ∧
    brightness_blue v =
      (if (v : Int) < 2048 then u16 (brightness_low_u32 v : Nat)
       else if (v : Int) > 2048 + DEADZONE then u16 (brightness_high_u32 v : Nat) else 0) ∧
    pos_x v = u8 (pos_x_u32 v : Nat) ∧
    pos_y v = u8 (pos_y_u32 v : Nat) :=
  ⟨rfl, rfl, rfl, rfl, rfl⟩

theorem new_adc_y_u32_eq (c : Nat) (hc : c ≤ 4043) : new_adc_y_u32 c = c * 4095 / 4043 := by
  have h1 : u32 (c : Int) = c := u32_natCast c (by omega)
  have h2 : u32 4095 = 4095 := by decide
  have h3 : u32 (4095 - Y_OFFSET) = 4043 := by decide
  have h4 : c * 4095 % 4294967296 = c * 4095 := Nat.mod_eq_of_lt (by omega)
  simp only [new_adc_y_u32, h1, h2, h3, h4]

theorem brightness_low_u32_eq (v : Nat) (h : v ≤ 1998) :
    brightness_low_u32 v = (1998 - v) * 255 / 1998 := by
  have h1 : u32 (2048 - DEADZONE - (v : Int)) = 1998 - v := by
    have := u32_sub 1998 v h (by norm_num)
    simpa [DEADZONE] using this
  have h2 : u32 (PWM_WRAP : Int) = 255 := u32_natCast 255 (by norm_num)
  have h3 : u32 (2048 - DEADZONE) = 1998 := by decide
  have h4 : (1998 - v) * 255 % 4294967296 = (1998 - v) * 255 := Nat.mod_eq_of_lt (by omega)
  simp only [brightness_low_u32, h1, h2, h3, h4]

theorem brightness_high_u32_eq (v : Nat) (h : 2098 < v) (hv : v ≤ 65535) :
    brightness_high_u32 v = (v - 2098) * 255 / 1997 := by
  have h1 : u32 ((v : Int) - (2048 + DEADZONE)) = v - 2098 := by
    have := u32_sub v 2098 (by omega) (by omega)
    simpa [DEADZONE] using this
  have h2 : u32 (PWM_WRAP : Int) = 255 := u32_natCast 255 (by norm_num)
  have h3 : u32 (2047 - DEADZONE) = 1997 := by decide
  have h4 : (v - 2098) * 255 % 4294967296 = (v - 2098) * 255 := Nat.mod_eq_of_lt (by omega)
  simp only [brightness_high_u32, h1, h2, h3, h4]

/-- After the dead zone step a value in `[0, 4095]` takes the lower-ramp branch only
when it is at most `1998` and the upper-ramp branch only when it exceeds `2098`; the
difference converted to `uint32_t` is then not negative, and the quotient assigned to
the `uint16_t` brightness is at most `255` and is assigned unchanged. -/
theorem ramp_arithmetic_well_defined (v : Nat) (hv : v ≤ 4095) :
    ((deadzone_x v : Int) < 2048 →
      deadzone_x v ≤ 1998 ∧ 0 ≤ 2048 - DEADZONE - (deadzone_x v : Int) ∧
      brightness_low_u32 (deadzone_x v) ≤ 255 ∧
      brightness_red (deadzone_x v) = brightness_low_u32 (deadzone_x v)) ∧
    (¬ (deadzone_x v : Int) < 2048 → (deadzone_x v : Int) > 2048 + DEADZONE →
      2098 < deadzone_x v ∧ 0 ≤ (deadzone_x v : Int) - (2048 + DEADZONE) ∧
      brightness_high_u32 (deadzone_x v) ≤ 255 ∧
      brightness_red (deadzone_x v) = brightness_high_u32 (deadzone_x v)) := by
  rcases Nat.lt_or_ge 1998 v with h1 | h1
  · rcases Nat.lt_or_ge v 2098 with h2 | h2
    · rw [deadzone_x_inside v h1 h2]
      simp only [DEADZONE]
      constructor
      · intro h; omega
      · intro _ h; omega
    · rw [deadzone_x_outside v (Or.inr h2)]
      simp only [DEADZONE]
      constructor
      · intro h; omega
      · intro _ h
        have h3 : 2098 < v := by omega
        rw [brightness_high_u32_eq v h3 (by omega), brightness_red_high v h3 (by omega)]
        refine ⟨h3, by omega, by omega, rfl⟩
  · rw [deadzone_x_outside v (Or.inl h1)]
    simp only [DEADZONE]
    constructor
    · intro _
      rw [brightness_low_u32_eq v h1, brightness_red_low v h1]
      refine ⟨h1, by omega, by omega, rfl⟩
    · intro h; omega

/-- C18: for every filtered X value `fx` and filtered Y value `fy` in `[0, 4095]` the
integer arithmetic of the cycle is well defined: the divisors are `4043`, `1998`,
`1997` and `4095`, none zero; after the dead zone step the lower-ramp branch is taken
only with a value at most `1998` and the upper-ramp branch only with a value above
`2098`, so the differences converted to `uint32_t` are not negative; the difference
`4095 - new_adc_y` is not negative; and every narrowing assignment keeps its value:
`new_adc_y ≤ 4095`, both brightnesses `≤ 255`, `pos_x ≤ 120` and `pos_y ≤ 56`. -/
theorem cycle_arithmetic_well_defined (fx fy : Nat) (hx : fx ≤ 4095) (hy : fy ≤ 4095) :
    -- the divisors
    (u32 (4095 - Y_OFFSET) = 4043 ∧ u32 (2048 - DEADZONE) = 1998 ∧
      u32 (2047 - DEADZONE) = 1997 ∧ u32 4095 = 4095) ∧
    -- line 207
    (new_adc_y_u32 (calibrated_adc_y fy) ≤ 4095 ∧
      new_adc_y (calibrated_adc_y fy) = new_adc_y_u32 (calibrated_adc_y fy)) ∧
    -- lines 217-223, red
    (((deadzone_x fx : Int) < 2048 →
        deadzone_x fx ≤ 1998 ∧ 0 ≤ 2048 - DEADZONE - (deadzone_x fx : Int) ∧
        brightness_low_u32 (deadzone_x fx) ≤ 255 ∧
        brightness_red (deadzone_x fx) = brightness_low_u32 (deadzone_x fx)) ∧
      (¬ (deadzone_x fx : Int) < 2048 → (deadzone_x fx : Int) > 2048 + DEADZONE →
        2098 < deadzone_x fx ∧ 0 ≤ (deadzone_x fx : Int) - (2048 + DEADZONE) ∧
        brightness_high_u32 (deadzone_x fx) ≤ 255 ∧
        brightness_red (deadzone_x fx) = brightness_high_u32 (deadzone_x fx))) ∧
    -- lines 225-231, blue
    (((deadzone_y (new_adc_y (calibrated_adc_y fy)) : Int) < 2048 →
        deadzone_y (new_adc_y (calibrated_adc_y fy)) ≤ 1998 ∧
        0 ≤ 2048 - DEADZONE - (deadzone_y (new_adc_y (calibrated_adc_y fy)) : Int) ∧
        brightness_low_u32 (deadzone_y (new_adc_y (calibrated_adc_y fy))) ≤ 255 ∧
        brightness_blue (deadzone_y (new_adc_y (calibrated_adc_y fy)))
          = brightness_low_u32 (deadzone_y (new_adc_y (calibrated_adc_y fy)))) ∧
      (¬ (deadzone_y (new_adc_y (calibrated_adc_y fy)) : Int) < 2048 →
        (deadzone_y (new_adc_y (calibrated_adc_y fy)) : Int) > 2048 + DEADZONE →
        2098 < deadzone_y (new_adc_y (calibrated_adc_y fy)) ∧
        0 ≤ (deadzone_y (new_adc_y (calibrated_adc_y fy)) : Int) - (2048 + DEADZONE) ∧
        brightness_high_u32 (deadzone_y (new_adc_y (calibrated_adc_y fy))) ≤ 255 ∧
        brightness_blue (deadzone_y (new_adc_y (calibrated_adc_y fy)))
          = brightness_high_u32 (deadzone_y (new_adc_y (calibrated_adc_y fy))))) ∧
    -- line 246
    (pos_x_u32 (deadzone_x fx) ≤ 120 ∧ pos_x (deadzone_x fx) = pos_x_u32 (deadzone_x fx)) ∧
    -- line 247
    (0 ≤ 4095 - (deadzone_y (new_adc_y (calibrated_adc_y fy)) : Int) ∧
      pos_y_u32 (deadzone_y (new_adc_y (calibrated_adc_y fy))) ≤ 56 ∧
      pos_y (deadzone_y (new_adc_y (calibrated_adc_y fy)))
        = pos_y_u32 (deadzone_y (new_adc_y (calibrated_adc_y fy)))) := by
  have hc : calibrated_adc_y fy ≤ 4043 := by
    rw [calibrated_adc_y_eq fy (by omega)]; exact Nat.min_le_right _ _
  have hn : new_adc_y (calibrated_adc_y fy) ≤ 4095 := by
    rw [new_adc_y_eq _ hc]; omega
  have hneq : new_adc_y (calibrated_adc_y fy) = new_adc_y_u32 (calibrated_adc_y fy) := by
    rw [new_adc_y_eq _ hc, new_adc_y_u32_eq _ hc]
  have dx := deadzone_x_le fx hx
  have dy : deadzone_y (new_adc_y (calibrated_adc_y fy)) ≤ 4095 := deadzone_x_le _ hn
  refine ⟨⟨by decide, by decide, by decide, by decide⟩, ⟨hneq ▸ hn, hneq⟩,
    ramp_arithmetic_well_defined fx hx,
    ramp_arithmetic_well_defined (new_adc_y (calibrated_adc_y fy)) hn, ⟨?_, ?_⟩, ?_, ?_, ?_⟩
  · rw [pos_x_u32_eq _ dx]; omega
  · rw [pos_x_eq _ dx, pos_x_u32_eq _ dx]
  · omega
  · rw [pos_y_u32_eq _ dy]; omega
  · rw [pos_y_eq _ dy, pos_y_u32_eq _ dy]

/-- Witness for C18: the filtered values `fx = 3000` (upper ramp) and `fy = 1000`
(lower ramp). -/
theorem cycle_arithmetic_well_defined_witness :
    (new_adc_y_u32 (calibrated_adc_y 1000) ≤ 4095 ∧
      new_adc_y (calibrated_adc_y 1000) = new_adc_y_u32 (calibrated_adc_y 1000)) ∧
    (2098 < deadzone_x 3000 ∧ 0 ≤ (deadzone_x 3000 : Int) - (2048 + DEADZONE) ∧
      brightness_high_u32 (deadzone_x 3000) ≤ 255 ∧
      brightness_red (deadzone_x 3000) = brightness_high_u32 (deadzone_x 3000)) ∧
    (deadzone_y (new_adc_y (calibrated_adc_y 1000)) ≤ 1998 ∧
      0 ≤ 2048 - DEADZONE - (deadzone_y (new_adc_y (calibrated_adc_y 1000)) : Int) ∧
      brightness_low_u32 (deadzone_y (new_adc_y (calibrated_adc_y 1000))) ≤ 255 ∧
      brightness_blue (deadzone_y (new_adc_y (calibrated_adc_y 1000)))
        = brightness_low_u32 (deadzone_y (new_adc_y (calibrated_adc_y 1000)))) ∧
    (pos_x_u32 (deadzone_x 3000) ≤ 120 ∧ pos_x (deadzone_x 3000) = pos_x_u32 (deadzone_x 3000)) :=
  have h := cycle_arithmetic_well_defined 3000 1000 (by decide) (by decide)
  ⟨h.2.1, h.2.2.1.2 (by decide) (by decide), h.2.2.2.1.1 (by decide), h.2.2.2.2.1⟩

/-! ## PWM disabled means both PWM levels are zero -/

theorem main_loop_pwm_enabled (s : State) (raw_adc_y raw_adc_x : Nat) :
    (main_loop s raw_adc_y raw_adc_x).1.pwm_enabled = s.pwm_enabled := by
  simp only [main_loop]
  split_ifs <;> rfl

theorem main_loop_levels_of_disabled (s : State) (raw_adc_y raw_adc_x : Nat)
    (h : s.pwm_enabled = false) :
    (main_loop s raw_adc_y raw_adc_x).1.level_red = s.level_red ∧
    (main_loop s raw_adc_y raw_adc_x).1.level_blue = s.level_blue := by
  simp only [main_loop, h]
  exact ⟨rfl, rfl⟩

theorem main_loop_levels_of_enabled (s : State) (raw_adc_y raw_adc_x : Nat)
    (h : s.pwm_enabled = true) :
    (main_loop s raw_adc_y raw_adc_x).1.level_red
      = (main_loop s raw_adc_y raw_adc_x).2.brightness_red ∧
    (main_loop s raw_adc_y raw_adc_x).1.level_blue
      = (main_loop s raw_adc_y raw_adc_x).2.brightness_blue := by
  simp only [main_loop, h, if_true, and_self]

theorem gpio_callback_dark_when_disabled (gpio events now : Nat) (s : State)
    (h : s.pwm_enabled = false → s.level_red = 0 ∧ s.level_blue = 0)
    (hd : (gpio_callback gpio events now s).pwm_enabled = false) :
    (gpio_callback gpio events now s).level_red = 0 ∧
    (gpio_callback gpio events now s).level_blue = 0 := by
  rcases gpio_callback_cases gpio events now s with e | ⟨_, _, e⟩ | ⟨_, _, e⟩
  · rw [e] at hd ⊢; exact h hd
  · rw [e] at hd ⊢; exact h hd
  · rw [e] at hd ⊢
    cases hp : s.pwm_enabled
    · rw [hp] at hd; simp at hd
    · simp

theorem step_dark_when_disabled (s : State) (e : Event)
    (h : s.pwm_enabled = false → s.level_red = 0 ∧ s.level_blue = 0) :
    (step s e).pwm_enabled = false → (step s e).level_red = 0 ∧ (step s e).level_blue = 0 := by
  cases e with
  | edge gpio events now => exact gpio_callback_dark_when_disabled gpio events now s h
  | cycle raw_adc_y raw_adc_x =>
    intro hd
    have hp : s.pwm_enabled = false := by
      rw [← main_loop_pwm_enabled s raw_adc_y raw_adc_x]; exact hd
    have hl := main_loop_levels_of_disabled s raw_adc_y raw_adc_x hp
    show (main_loop s raw_adc_y raw_adc_x).1.level_red = 0 ∧
      (main_loop s raw_adc_y raw_adc_x).1.level_blue = 0
    rw [hl.1, hl.2]
    exact h hp

theorem run_dark_when_disabled (es : List Event) :
    ∀ s : State, (s.pwm_enabled = false → s.level_red = 0 ∧ s.level_blue = 0) →
      (run s es).pwm_enabled = false → (run s es).level_red = 0 ∧ (run s es).level_blue = 0 := by
  induction es with
  | nil => intro s h; exact h
  | cons e es ih => intro s h; exact ih (step s e) (step_dark_when_disabled s e h)

/-- C19: with each call of `gpio_callback` and each loop iteration taken as one atomic
step, every state reached from a state with `pwm_enabled = true` satisfies: if
`pwm_enabled` is false then both PWM levels are `0`. The handler sets both levels to
`0` whenever it leaves `pwm_enabled` false after finding it true, and a loop iteration
that finds `pwm_enabled` false leaves both levels as they are, for any raw samples. -/
theorem pwm_disabled_levels_zero (s0 s : State) (es : List Event)
    (gpio events now raw_adc_y raw_adc_x : Nat) (h0 : s0.pwm_enabled = true) :
    ((run s0 es).pwm_enabled = false →
      (run s0 es).level_red = 0 ∧ (run s0 es).level_blue = 0) ∧
    (s.pwm_enabled = true → (gpio_callback gpio events now s).pwm_enabled = false →
      (gpio_callback gpio events now s).level_red = 0 ∧
      (gpio_callback gpio events now s).level_blue = 0) ∧
    (s.pwm_enabled = false →
      (main_loop s raw_adc_y raw_adc_x).1.level_red = s.level_red ∧
      (main_loop s raw_adc_y raw_adc_x).1.level_blue = s.level_blue) := by
  refine ⟨?_, ?_, main_loop_levels_of_disabled s raw_adc_y raw_adc_x⟩
  · apply run_dark_when_disabled es s0
    intro h; rw [h0] at h; exact absurd h (by decide)
  · intro hp
    apply gpio_callback_dark_when_disabled gpio events now s
    intro h; rw [hp] at h; exact absurd h (by decide)

/-- Witness for C19: from the initial state, a loop iteration with raw samples `0`
sets the levels to `23` (blue) and `19` (red), an accepted button-A edge at `200000`
disables PWM, and a further loop iteration leaves both levels at `0`. -/
theorem pwm_disabled_levels_zero_witness :
    (run (main_init 0 0) [Event.cycle 0 0]).level_red = 19 ∧
    (run (main_init 0 0)
      [Event.cycle 0 0, Event.edge BUTTON_A_PIN 4 200000, Event.cycle 0 0]).pwm_enabled = false ∧
    ((run (main_init 0 0)
        [Event.cycle 0 0, Event.edge BUTTON_A_PIN 4 200000, Event.cycle 0 0]).level_red = 0 ∧
      (run (main_init 0 0)
        [Event.cycle 0 0, Event.edge BUTTON_A_PIN 4 200000, Event.cycle 0 0]).level_blue = 0) :=
  ⟨by decide, by decide,
   (pwm_disabled_levels_zero (main_init 0 0) (main_init 0 0)
      [Event.cycle 0 0, Event.edge BUTTON_A_PIN 4 200000, Event.cycle 0 0] 5 4 200000 0 0
      rfl).1 (by decide)⟩

end Joystick
